import Mathlib

/-!
libgd: GdStack, GdStackSwitcher and GdStyledTextRenderer.

A shallow embedding of `gd-stack.c`, `gd-stack-switcher.c` and
`gd-styled-text-renderer.c`.

Widgets are handles (natural numbers); a nullable `GtkWidget *` is an
`Option GtkWidget`.  The toolkit state the stack code reads and writes
(each widget's visibility flag, child-visible flag, name, parent link, the
property notifications emitted on the stack and the resize requests queued
on it) is carried in the same record as the private fields of the stack,
so that every C function is a pure function on that record.  The switcher
record likewise carries its private fields, the buttons packed in its box
and the stacks it can be attached to.  Toolkit queries whose answers the code
only reads (the preferred sizes and the computed expansion of a child) are
arguments of the functions that call them.
-/

namespace Gd

/-! ## Definitions: GdStack -/

/-- A non-null `GtkWidget *`. -/
abbrev GtkWidget := Nat

/-- The property ids of `gd-stack.c` (the `enum` next to `PROP_0`); a
`g_object_notify (stack, "visible-child")` is recorded as `PROP_VISIBLE_CHILD`,
and so on. -/
inductive GdStackProperty where
  | PROP_HOMOGENOUS
  | PROP_VISIBLE_CHILD
  | PROP_VISIBLE_CHILD_NAME
  deriving DecidableEq, Repr

/-- The stack together with the toolkit state its code touches.
`children`, `visible_child`, `homogenous` are `struct _GdStackPrivate`;
the remaining fields belong to the host toolkit. -/
structure GdStack where
  /-- The field `priv->children`, in insertion order. -/
  children : List GtkWidget
  /-- The field `priv->visible_child`. -/
  visible_child : Option GtkWidget
  /-- The field `priv->homogenous`. -/
  homogenous : Bool
  /-- What `gtk_widget_get_visible` answers for each widget. -/
  visible : GtkWidget → Bool
  /-- The child-visible flag of each widget (`gtk_widget_set_child_visible`). -/
  child_visible : GtkWidget → Bool
  /-- What `gtk_widget_get_name` answers for each widget. -/
  name : GtkWidget → Option String
  /-- Whether the widget is currently parented to this stack. -/
  parented : GtkWidget → Bool
  /-- The property notifications emitted on the stack so far, oldest first. -/
  notified : List GdStackProperty
  /-- How many times `gtk_widget_queue_resize` was called on the stack. -/
  queued_resizes : Nat

/-- Pointwise update of a per-widget flag. -/
def setFlag (f : GtkWidget → Bool) (w : GtkWidget) (b : Bool) : GtkWidget → Bool :=
  fun x => if x = w then b else f x

/-- Toolkit: `gtk_widget_get_visible (w)`. -/
def gtk_widget_get_visible (s : GdStack) (w : GtkWidget) : Bool :=
  s.visible w

/-- Toolkit: `gtk_widget_get_name (w)`. -/
def gtk_widget_get_name (s : GdStack) (w : GtkWidget) : Option String :=
  s.name w

/-- Toolkit: `gtk_widget_set_child_visible (w, b)`. -/
def gtk_widget_set_child_visible (s : GdStack) (w : GtkWidget) (b : Bool) : GdStack :=
  { s with child_visible := setFlag s.child_visible w b }

/-- Toolkit: `gtk_widget_queue_resize (GTK_WIDGET (stack))`. -/
def gtk_widget_queue_resize (s : GdStack) : GdStack :=
  { s with queued_resizes := s.queued_resizes + 1 }

/-- Toolkit: `g_object_notify (G_OBJECT (stack), property)`; the notification
is emitted unconditionally. -/
def g_object_notify (s : GdStack) (p : GdStackProperty) : GdStack :=
  { s with notified := s.notified ++ [p] }

/-- Toolkit: `gtk_widget_set_parent (child, GTK_WIDGET (stack))`. -/
def gtk_widget_set_parent (s : GdStack) (w : GtkWidget) : GdStack :=
  { s with parented := setFlag s.parented w true }

/-- Toolkit: `gtk_widget_unparent (child)`: the parent link is dropped and the
child-visible flag of the widget goes back to its default, true. -/
def gtk_widget_unparent (s : GdStack) (w : GtkWidget) : GdStack :=
  { s with parented := setFlag s.parented w false
           child_visible := setFlag s.child_visible w true }

/-- The function `gd_stack_new`, in a toolkit where the widgets have the given
visibility flags, child-visible flags and names. -/
def gd_stack_new (visible child_visible : GtkWidget → Bool)
    (name : GtkWidget → Option String) : GdStack :=
  { children := []
    visible_child := none
    homogenous := false
    visible := visible
    child_visible := child_visible
    name := name
    parented := fun _ => false
    notified := []
    queued_resizes := 0 }

/-- The loop at the head of `set_visible_child`: the first element of
`priv->children` for which `gtk_widget_get_visible` holds, `NULL` when the
loop runs to the end. -/
def first_visible (s : GdStack) : Option GtkWidget :=
  s.children.find? (fun w => gtk_widget_get_visible s w)

/-- The static function `set_visible_child` (gd-stack.c:213). -/
def set_visible_child (s : GdStack) (child : Option GtkWidget) : GdStack :=
  -- If none, pick first visible
  let child := match child with
    | none => first_visible s
    | some c => some c
  let s := match s.visible_child with
    | some old => gtk_widget_set_child_visible s old false
    | none => s
  let s := { s with visible_child := child }
  let s := match child with
    | some c => gtk_widget_set_child_visible s c true
    | none => s
  let s := gtk_widget_queue_resize s
  let s := g_object_notify s GdStackProperty.PROP_VISIBLE_CHILD
  g_object_notify s GdStackProperty.PROP_VISIBLE_CHILD_NAME

/-- The callback `stack_child_visibility_notify_cb` (gd-stack.c:249), run on
the stack for the child whose `visible` property was notified. -/
def stack_child_visibility_notify_cb (s : GdStack) (child : GtkWidget) : GdStack :=
  if s.visible_child = none ∧ gtk_widget_get_visible s child = true then
    set_visible_child s (some child)
  else if s.visible_child = some child ∧ gtk_widget_get_visible s child = true then
    set_visible_child s none
  else
    s

/-- The function `gd_stack_add` (gd-stack.c:266).  The `notify::visible`
handler it connects on the child is the one `gd_stack_remove` disconnects, so
as long as a widget is added only when it is not yet a child, the widgets
carrying the handler are the elements of `children`; `gtk_widget_set_visible`
dispatches on that. -/
def gd_stack_add (s : GdStack) (child : Option GtkWidget) : GdStack :=
  match child with
  | none => s
  | some c =>
    let s := { s with children := s.children ++ [c] }
    let s := gtk_widget_set_parent s c
    let s :=
      if s.visible_child = none ∧ gtk_widget_get_visible s c = true then
        set_visible_child s (some c)
      else
        gtk_widget_set_child_visible s c false
    if s.homogenous then gtk_widget_queue_resize s else s

/-- The function `gd_stack_remove` (gd-stack.c:292): `g_list_find` and
`g_list_delete_link` drop the first link holding `child`. -/
def gd_stack_remove (s : GdStack) (child : GtkWidget) : GdStack :=
  if child ∈ s.children then
    let s := { s with children := s.children.erase child }
    let s := gtk_widget_unparent s child
    let s := if s.visible_child = some child then set_visible_child s none else s
    if s.homogenous then gtk_widget_queue_resize s else s
  else
    s

/-- The function `gd_stack_set_homogenous` (gd-stack.c:321). -/
def gd_stack_set_homogenous (s : GdStack) (homogenous : Bool) : GdStack :=
  if s.homogenous = homogenous then s
  else
    let s := { s with homogenous := homogenous }
    let s := gtk_widget_queue_resize s
    g_object_notify s GdStackProperty.PROP_HOMOGENOUS

/-- The function `gd_stack_get_homogenous`. -/
def gd_stack_get_homogenous (s : GdStack) : Bool :=
  s.homogenous

/-- The function `gd_stack_get_visible_child`. -/
def gd_stack_get_visible_child (s : GdStack) : Option GtkWidget :=
  s.visible_child

/-- The function `gd_stack_get_visible_child_name` (gd-stack.c:373). -/
def gd_stack_get_visible_child_name (s : GdStack) : Option String :=
  match s.visible_child with
  | some c => gtk_widget_get_name s c
  | none => none

/-- The public function `gd_stack_set_visible_child` (gd-stack.c:386); a
`NULL` child fails `g_return_if_fail (child != NULL)`. -/
def gd_stack_set_visible_child (s : GdStack) (child : Option GtkWidget) : GdStack :=
  match child with
  | none => s
  | some c =>
    if c ∈ s.children then
      if gtk_widget_get_visible s c = true then set_visible_child s (some c) else s
    else
      s

/-- The test of the loop of `gd_stack_set_visible_child_name`:
`child_name != NULL && strcmp (child_name, name) == 0`. -/
def name_matches (s : GdStack) (name : String) (w : GtkWidget) : Bool :=
  match gtk_widget_get_name s w with
  | none => false
  | some child_name => decide (child_name = name)

/-- The function `gd_stack_set_visible_child_name` (gd-stack.c:404); a `NULL`
name fails `g_return_if_fail (name != NULL)`. -/
def gd_stack_set_visible_child_name (s : GdStack) (name : Option String) : GdStack :=
  match name with
  | none => s
  | some n =>
    match s.children.find? (name_matches s n) with
    | some c =>
      if gtk_widget_get_visible s c = true then set_visible_child s (some c) else s
    | none => s

/-- Toolkit: the `visible` property of widget `w` is set to `b`.  Nothing
happens when the flag already has that value; otherwise the flag changes and
`notify::visible` runs the stack's handler when `w` carries it.  As long as
no widget is added while it is already a child (so on every state of
`Reachable`), a widget carries the handler, once, exactly when it is one of
the stack's children. -/
def gtk_widget_set_visible (s : GdStack) (w : GtkWidget) (b : Bool) : GdStack :=
  if s.visible w = b then s
  else
    let s := { s with visible := setFlag s.visible w b }
    if w ∈ s.children then stack_child_visibility_notify_cb s w else s

/-- The stack states reachable from a new stack by the container and property
calls of the public interface and by visibility changes of widgets.  The
container only hands a widget to `gd_stack_add` when it is not yet a child. -/
inductive Reachable : GdStack → Prop
  | new (visible child_visible : GtkWidget → Bool) (name : GtkWidget → Option String) :
      Reachable (gd_stack_new visible child_visible name)
  | add {s : GdStack} (child : GtkWidget) :
      Reachable s → child ∉ s.children → Reachable (gd_stack_add s (some child))
  | remove {s : GdStack} (child : GtkWidget) :
      Reachable s → Reachable (gd_stack_remove s child)
  | set_visible_child {s : GdStack} (child : Option GtkWidget) :
      Reachable s → Reachable (gd_stack_set_visible_child s child)
  | set_visible_child_name {s : GdStack} (name : Option String) :
      Reachable s → Reachable (gd_stack_set_visible_child_name s name)
  | set_visible {s : GdStack} (w : GtkWidget) (b : Bool) :
      Reachable s → Reachable (gtk_widget_set_visible s w b)
  | set_homogenous {s : GdStack} (b : Bool) :
      Reachable s → Reachable (gd_stack_set_homogenous s b)

/-- Scenario 1 of the specification: a new stack to which the widgets `0`,
`1`, `2` (A, B, C), all with their visibility flag set, are added in that
order.  A is named "a", B "b", C "c". -/
def scenario1 : GdStack :=
  gd_stack_add
    (gd_stack_add
      (gd_stack_add
        (gd_stack_new (fun _ => true) (fun _ => true)
          (fun w => if w = 0 then some "a" else if w = 1 then some "b" else some "c"))
        (some 0))
      (some 1))
    (some 2)

/-- The invariant of the stack: no widget is listed twice, the visible child
is listed, and among the listed widgets the child-visible flag is set on the
visible child and on no other. -/
def StackInv (s : GdStack) : Prop :=
  s.children.Nodup ∧
  (∀ c, s.visible_child = some c → c ∈ s.children) ∧
  (∀ c ∈ s.children, s.child_visible c = true ↔ s.visible_child = some c)

/-! ### Layout -/

/-- The glib macro `MAX (a, b)`: `((a) > (b)) ? (a) : (b)`. -/
def MAX (a b : Int) : Int :=
  if a > b then a else b

/-- One round of the loop that the four preferred-size functions share, on
the pair (`*minimum`, `*natural`): a child is skipped when the stack is not
homogenous and the child is not `priv->visible_child`; otherwise, when
`gtk_widget_get_visible (child)` holds, the child's sizes `child_size child`
= (`child_min`, `child_nat`) are folded in with `MAX`. -/
def preferred_size_step (s : GdStack) (child_size : GtkWidget → Int × Int)
    (acc : Int × Int) (child : GtkWidget) : Int × Int :=
  if s.homogenous = false ∧ s.visible_child ≠ some child then
    acc
  else if gtk_widget_get_visible s child = true then
    (MAX acc.1 (child_size child).1, MAX acc.2 (child_size child).2)
  else
    acc

/-- The body that the four preferred-size functions share: both results start
at 0 and the loop runs over `priv->children`. -/
def preferred_size (s : GdStack) (child_size : GtkWidget → Int × Int) : Int × Int :=
  s.children.foldl (preferred_size_step s child_size) (0, 0)

/-- The function `gd_stack_get_preferred_height` (gd-stack.c:517); the
argument is the toolkit's `gtk_widget_get_preferred_height`, giving
(`child_min`, `child_nat`) for each child.  The result is
(`*minimum_height`, `*natural_height`). -/
def gd_stack_get_preferred_height (s : GdStack)
    (gtk_widget_get_preferred_height : GtkWidget → Int × Int) : Int × Int :=
  preferred_size s gtk_widget_get_preferred_height

/-- The function `gd_stack_get_preferred_height_for_width` (gd-stack.c:547). -/
def gd_stack_get_preferred_height_for_width (s : GdStack)
    (gtk_widget_get_preferred_height_for_width : GtkWidget → Int → Int × Int)
    (width : Int) : Int × Int :=
  preferred_size s (fun child => gtk_widget_get_preferred_height_for_width child width)

/-- The function `gd_stack_get_preferred_width` (gd-stack.c:578). -/
def gd_stack_get_preferred_width (s : GdStack)
    (gtk_widget_get_preferred_width : GtkWidget → Int × Int) : Int × Int :=
  preferred_size s gtk_widget_get_preferred_width

/-- The function `gd_stack_get_preferred_width_for_height` (gd-stack.c:608). -/
def gd_stack_get_preferred_width_for_height (s : GdStack)
    (gtk_widget_get_preferred_width_for_height : GtkWidget → Int → Int × Int)
    (height : Int) : Int × Int :=
  preferred_size s (fun child => gtk_widget_get_preferred_width_for_height child height)

/-- Whether the loop of the preferred-size functions folds in the sizes of
`child`: the two tests of `preferred_size_step` taken together. -/
def takes_part (s : GdStack) (child : GtkWidget) : Bool :=
  (s.homogenous || decide (s.visible_child = some child)) && gtk_widget_get_visible s child

/-- The specification's reading of a size result: `r` is the maximum of `f`
over the elements of `l` that satisfy `p` (an upper bound that one of them
attains), and 0 when no element of `l` satisfies `p`. -/
def IsMaxOver (l : List GtkWidget) (p : GtkWidget → Bool) (f : GtkWidget → Int)
    (r : Int) : Prop :=
  (∀ c ∈ l, p c = true → f c ≤ r) ∧
  ((∃ c ∈ l, p c = true) → ∃ c ∈ l, p c = true ∧ f c = r) ∧
  ((∀ c ∈ l, p c = false) → r = 0)

/-- The toolkit's `GtkOrientation`. -/
inductive GtkOrientation where
  | GTK_ORIENTATION_HORIZONTAL
  | GTK_ORIENTATION_VERTICAL
  deriving DecidableEq, Repr

/-- The loop of `gd_stack_compute_expand` from a given position of
`priv->children`, with the current values of `hexpand` and `vexpand`; the
argument `gtk_widget_compute_expand` is the toolkit's function.  A query is
not made once its flag is set, and the loop is left once both are set. -/
def compute_expand_loop (gtk_widget_compute_expand : GtkWidget → GtkOrientation → Bool) :
    List GtkWidget → Bool → Bool → Bool × Bool
  | [], hexpand, vexpand => (hexpand, vexpand)
  | child :: l, hexpand, vexpand =>
    let hexpand :=
      if hexpand = false ∧
          gtk_widget_compute_expand child GtkOrientation.GTK_ORIENTATION_HORIZONTAL = true then
        true
      else
        hexpand
    let vexpand :=
      if vexpand = false ∧
          gtk_widget_compute_expand child GtkOrientation.GTK_ORIENTATION_VERTICAL = true then
        true
      else
        vexpand
    if hexpand = true ∧ vexpand = true then
      (hexpand, vexpand)
    else
      compute_expand_loop gtk_widget_compute_expand l hexpand vexpand

/-- The function `gd_stack_compute_expand` (gd-stack.c:448); the result is
(`*hexpand_p`, `*vexpand_p`). -/
def gd_stack_compute_expand (s : GdStack)
    (gtk_widget_compute_expand : GtkWidget → GtkOrientation → Bool) : Bool × Bool :=
  compute_expand_loop gtk_widget_compute_expand s.children false false

/-- The specification's expansion flags: the plain logical OR, over all
children, of each child's computed expansion in the two orientations. -/
def expand_or_of_children (s : GdStack)
    (gtk_widget_compute_expand : GtkWidget → GtkOrientation → Bool) : Bool × Bool :=
  (s.children.any
      (fun c => gtk_widget_compute_expand c GtkOrientation.GTK_ORIENTATION_HORIZONTAL),
   s.children.any
      (fun c => gtk_widget_compute_expand c GtkOrientation.GTK_ORIENTATION_VERTICAL))

/-- Scenario 7 of the specification: the preferred heights (minimum and
natural alike) of the children A, B, C of scenario 1 are 20, 40, 60. -/
def scenario7_heights : GtkWidget → Int × Int :=
  fun w => if w = 0 then (20, 20) else if w = 1 then (40, 40) else (60, 60)

/-- Scenario 7 in homogeneous mode: scenario 1 after
`gd_stack_set_homogenous (stack, TRUE)`. -/
def scenario7_homogenous : GdStack :=
  gd_stack_set_homogenous scenario1 true

/-- Scenario 2 of the specification: scenario 1 after the visible child A was
hidden. -/
def scenario2 : GdStack :=
  gtk_widget_set_visible scenario1 0 false

/-! ## Definitions: GdStackSwitcher -/

/-- A button of the switcher: the `GtkRadioButton` that `add_child` creates.
`id` is its address, `stack_child` the pointer stored under the key
"stack-child" with `g_object_set_data`, `active` the toggle state that
`gtk_toggle_button_get_active` reads. -/
structure GtkRadioButton where
  id : Nat
  label : Option String
  stack_child : Option GtkWidget
  active : Bool
  deriving DecidableEq, Repr

/-- The switcher together with the toolkit state its code touches.  `stack`
and `buttons` are `struct _GdStackSwitcherPrivate`; a `GdStack *` is the
address of a stack, and `heap` gives the stack living at each address. -/
structure GdStackSwitcher where
  /-- The field `priv->stack`. -/
  stack : Option Nat
  /-- The field `priv->buttons`: the hash table from child to button address,
  as the list of its entries. -/
  buttons : List (GtkWidget × Nat)
  /-- The children of the switcher itself (a horizontal `GtkBox`): the button
  bar, in packing order. -/
  box : List GtkRadioButton
  /-- The address `gtk_radio_button_new` hands out next. -/
  next_button : Nat
  /-- The stacks of the program, by address. -/
  heap : Nat → GdStack
  /-- The container-child property "title" of each stack child. -/
  title : GtkWidget → Option String
  /-- Whether the three stack-level handlers of this switcher (`add`, `remove`,
  `notify::visible-child`) are connected on the stack at that address. -/
  connected : Nat → Bool
  /-- The children on which `add_child` connected `on_title_updated`. -/
  title_handlers : List GtkWidget
  /-- How many times the property "stack" was notified on the switcher. -/
  stack_notified : Nat
  /-- How many times `gtk_widget_queue_resize` was called on the switcher. -/
  queued_resizes : Nat

/-- The call `g_hash_table_lookup (priv->buttons, key)`. -/
def g_hash_table_lookup (t : List (GtkWidget × Nat)) (key : GtkWidget) : Option Nat :=
  match t.find? (fun e => decide (e.1 = key)) with
  | some e => some e.2
  | none => none

/-- The call `g_hash_table_insert (priv->buttons, key, value)`: an entry with
the same key has its value replaced. -/
def g_hash_table_insert (t : List (GtkWidget × Nat)) (key : GtkWidget) (value : Nat) :
    List (GtkWidget × Nat) :=
  if t.any (fun e => decide (e.1 = key)) then
    t.map (fun e => if e.1 = key then (key, value) else e)
  else
    t ++ [(key, value)]

/-- The call `g_hash_table_remove (priv->buttons, key)`. -/
def g_hash_table_remove (t : List (GtkWidget × Nat)) (key : GtkWidget) :
    List (GtkWidget × Nat) :=
  t.filter (fun e => decide (e.1 ≠ key))

/-- The function `gd_stack_switcher_new`: `gd_stack_switcher_init` leaves
`priv->stack` null and `priv->buttons` empty; the program's stacks and the
titles of their children are given. -/
def gd_stack_switcher_new (heap : Nat → GdStack) (title : GtkWidget → Option String) :
    GdStackSwitcher :=
  { stack := none
    buttons := []
    box := []
    next_button := 0
    heap := heap
    title := title
    connected := fun _ => false
    title_handlers := []
    stack_notified := 0
    queued_resizes := 0 }

/-- The function `clear_switcher` (gd-stack-switcher.c:55): every child of
the switcher box is destroyed, which takes it out of the box.  Nothing else
is written. -/
def clear_switcher (w : GdStackSwitcher) : GdStackSwitcher :=
  { w with box := [] }

/-- Toolkit: `gtk_radio_button_new (NULL)` at the given address: the new
button is the one member of a radio group of its own, and is active. -/
def gtk_radio_button_new (id : Nat) : GtkRadioButton :=
  { id := id, label := none, stack_child := none, active := true }

/-- Toolkit: `gtk_radio_button_join_group (button, group_source)`, where
`group` lists the members of the group of `group_source`: on entering a
group the button is asked to become inactive, which a radio button does when
another member of its group is active. -/
def gtk_radio_button_join_group (button : GtkRadioButton) (group : List GtkRadioButton) :
    GtkRadioButton :=
  if group.any (fun b => b.active) then { button with active := false } else button

/-- The function `add_child` (gd-stack-switcher.c:88).  The size request, the
expand flag and the style classes it gives the button are presentation only
and are not carried; the `clicked` handler it connects is `on_button_clicked`
for every button of the bar.  Every button of the box joined the group of the
first one, so the group joined is the box. -/
def add_child (w : GdStackSwitcher) (widget : GtkWidget) : GdStackSwitcher :=
  let title := w.title widget
  let button : GtkRadioButton := gtk_radio_button_new w.next_button
  let w := { w with next_button := w.next_button + 1 }
  let button :=
    match title with
    | some t => if t ≠ "" then { button with label := some t } else button
    | none => button
  let group := w.box
  let button :=
    match group with
    | [] => button
    | _ :: _ => gtk_radio_button_join_group button group
  let w := { w with box := w.box ++ [button] }
  let set_data (b : GtkRadioButton) : GtkRadioButton :=
    if b.id = button.id then { b with stack_child := some widget } else b
  let w := { w with box := w.box.map set_data }
  let w := { w with title_handlers := w.title_handlers ++ [widget] }
  { w with buttons := g_hash_table_insert w.buttons widget button.id }

/-- The function `populate_switcher` (gd-stack-switcher.c:136):
`gtk_container_foreach` on the stack runs `gd_stack_forall`, which calls
`foreach_stack`, that is `add_child`, on each child in list order. -/
def populate_switcher (w : GdStackSwitcher) : GdStackSwitcher :=
  match w.stack with
  | some st => (w.heap st).children.foldl add_child w
  | none => w

/-- The handler `on_stack_child_added`. -/
def on_stack_child_added (w : GdStackSwitcher) (widget : GtkWidget) : GdStackSwitcher :=
  add_child w widget

/-- The handler `on_stack_child_removed` (gd-stack-switcher.c:164);
`gtk_container_remove` only takes out a widget that is a child of the box. -/
def on_stack_child_removed (w : GdStackSwitcher) (widget : GtkWidget) : GdStackSwitcher :=
  let button := g_hash_table_lookup w.buttons widget
  let w :=
    match button with
    | some b => { w with box := w.box.filter (fun x => decide (x.id ≠ b)) }
    | none => w
  { w with buttons := g_hash_table_remove w.buttons widget }

/-- The function `disconnect_stack_signals`, on `priv->stack`. -/
def disconnect_stack_signals (w : GdStackSwitcher) : GdStackSwitcher :=
  match w.stack with
  | some st => { w with connected := fun a => if a = st then false else w.connected a }
  | none => w

/-- The function `connect_stack_signals`, on `priv->stack`. -/
def connect_stack_signals (w : GdStackSwitcher) : GdStackSwitcher :=
  match w.stack with
  | some st => { w with connected := fun a => if a = st then true else w.connected a }
  | none => w

/-- The function `gd_stack_switcher_set_stack` (gd-stack-switcher.c:200). -/
def gd_stack_switcher_set_stack (w : GdStackSwitcher) (stack : Option Nat) :
    GdStackSwitcher :=
  if w.stack = stack then w
  else
    let w :=
      match w.stack with
      | some _ =>
        let w := disconnect_stack_signals w
        let w := clear_switcher w
        { w with stack := none }
      | none => w
    let w :=
      match stack with
      | some st =>
        let w := { w with stack := some st }
        let w := populate_switcher w
        connect_stack_signals w
      | none => w
    let w := { w with queued_resizes := w.queued_resizes + 1 }
    { w with stack_notified := w.stack_notified + 1 }

/-- The function `gd_stack_switcher_get_stack`. -/
def gd_stack_switcher_get_stack (w : GdStackSwitcher) : Option Nat :=
  w.stack

/-- The keys of the table `priv->buttons`. -/
def button_keys (w : GdStackSwitcher) : List GtkWidget :=
  w.buttons.map Prod.fst

/-- Scenario 8 of the specification (swap stacks): Stack1, at address 1, is
the stack of scenario 1 with children A, B, C (`0`, `1`, `2`); Stack2, at
address 2, holds the single visible child D (`3`). -/
def two_stacks : Nat → GdStack :=
  fun a =>
    if a = 1 then scenario1
    else gd_stack_add (gd_stack_new (fun _ => true) (fun _ => true) (fun _ => none)) (some 3)

/-- The active buttons of the bar, as the children they stand for. -/
def active_children (w : GdStackSwitcher) : List (Option GtkWidget) :=
  (w.box.filter (fun b => b.active)).map (fun b => b.stack_child)

/-- A stack with the two visible children A and B (`0`, `1`), in that order,
on which `gd_stack_set_visible_child (stack, B)` was called: its visible child
is B, not its first child. -/
def stack_showing_second : GdStack :=
  gd_stack_set_visible_child
    (gd_stack_add
      (gd_stack_add (gd_stack_new (fun _ => true) (fun _ => true) (fun _ => none)) (some 0))
      (some 1))
    (some 1)

/-- The same two children with the first of them, A, the visible child. -/
def stack_showing_first : GdStack :=
  gd_stack_add
    (gd_stack_add (gd_stack_new (fun _ => true) (fun _ => true) (fun _ => none)) (some 0))
    (some 1)

/-- A new switcher in the world of `two_stacks`, attached to Stack1. -/
def switcher_on_stack1 : GdStackSwitcher :=
  gd_stack_switcher_set_stack (gd_stack_switcher_new two_stacks (fun _ => none)) (some 1)

/-! ## Definitions: GdStyledTextRenderer -/

/-- The renderer: `struct _GdStyledTextRendererPrivate`.  A tag is a
`const gchar *`, `none` for `NULL`; `g_strcmp0` finds two tags equal exactly
when both are `NULL` or both are strings with the same characters. -/
structure GdStyledTextRenderer where
  /-- The field `priv->style_classes`, in list order. -/
  style_classes : List (Option String)

/-- The function `gd_styled_text_renderer_new`. -/
def gd_styled_text_renderer_new : GdStyledTextRenderer :=
  { style_classes := [] }

/-- The function `gd_styled_text_renderer_add_class`
(gd-styled-text-renderer.c:103). -/
def gd_styled_text_renderer_add_class (self : GdStyledTextRenderer)
    (class_ : Option String) : GdStyledTextRenderer :=
  if class_ ∈ self.style_classes then self
  else { self with style_classes := self.style_classes ++ [class_] }

/-- The function `gd_styled_text_renderer_remove_class`
(gd-styled-text-renderer.c:117): `g_list_find_custom` gives the first link
whose tag compares equal, `g_list_remove_link` takes that link out. -/
def gd_styled_text_renderer_remove_class (self : GdStyledTextRenderer)
    (class_ : Option String) : GdStyledTextRenderer :=
  if class_ ∈ self.style_classes then
    { self with style_classes := self.style_classes.erase class_ }
  else
    self

/-- The renderer states reachable from a new renderer by `add_class` and
`remove_class` calls. -/
inductive RendererReachable : GdStyledTextRenderer → Prop
  | new : RendererReachable gd_styled_text_renderer_new
  | add_class {r : GdStyledTextRenderer} (class_ : Option String) :
      RendererReachable r → RendererReachable (gd_styled_text_renderer_add_class r class_)
  | remove_class {r : GdStyledTextRenderer} (class_ : Option String) :
      RendererReachable r → RendererReachable (gd_styled_text_renderer_remove_class r class_)

/-! ## Theorems: GdStack -/

/-! ### What `set_visible_child` writes -/

theorem set_visible_child_children (s : GdStack) (child : Option GtkWidget) :
    (set_visible_child s child).children = s.children := by
  cases child <;> cases hv : s.visible_child <;> cases hf : first_visible s <;>
    simp [set_visible_child, hv, hf, g_object_notify, gtk_widget_queue_resize,
      gtk_widget_set_child_visible]

theorem set_visible_child_visible (s : GdStack) (child : Option GtkWidget) :
    (set_visible_child s child).visible = s.visible := by
  cases child <;> cases hv : s.visible_child <;> cases hf : first_visible s <;>
    simp [set_visible_child, hv, hf, g_object_notify, gtk_widget_queue_resize,
      gtk_widget_set_child_visible]

theorem set_visible_child_names (s : GdStack) (child : Option GtkWidget) :
    (set_visible_child s child).name = s.name := by
  cases child <;> cases hv : s.visible_child <;> cases hf : first_visible s <;>
    simp [set_visible_child, hv, hf, g_object_notify, gtk_widget_queue_resize,
      gtk_widget_set_child_visible]

theorem set_visible_child_homogenous (s : GdStack) (child : Option GtkWidget) :
    (set_visible_child s child).homogenous = s.homogenous := by
  cases child <;> cases hv : s.visible_child <;> cases hf : first_visible s <;>
    simp [set_visible_child, hv, hf, g_object_notify, gtk_widget_queue_resize,
      gtk_widget_set_child_visible]

theorem set_visible_child_notified (s : GdStack) (child : Option GtkWidget) :
    (set_visible_child s child).notified =
      s.notified ++ [GdStackProperty.PROP_VISIBLE_CHILD,
        GdStackProperty.PROP_VISIBLE_CHILD_NAME] := by
  cases child <;> cases hv : s.visible_child <;> cases hf : first_visible s <;>
    simp [set_visible_child, hv, hf, g_object_notify, gtk_widget_queue_resize,
      gtk_widget_set_child_visible]

theorem set_visible_child_some_visible_child (s : GdStack) (c : GtkWidget) :
    (set_visible_child s (some c)).visible_child = some c := by
  cases hv : s.visible_child <;>
    simp [set_visible_child, hv, g_object_notify, gtk_widget_queue_resize,
      gtk_widget_set_child_visible]

theorem set_visible_child_none_visible_child (s : GdStack) :
    (set_visible_child s none).visible_child = first_visible s := by
  cases hv : s.visible_child <;> cases hf : first_visible s <;>
    simp [set_visible_child, hv, hf, g_object_notify, gtk_widget_queue_resize,
      gtk_widget_set_child_visible]

/-- The child-visible flags after `set_visible_child`: true on the new visible
child, false on the previous one, untouched elsewhere. -/
theorem set_visible_child_child_visible (s : GdStack) (child : Option GtkWidget)
    (x : GtkWidget) :
    (set_visible_child s child).child_visible x =
      if (set_visible_child s child).visible_child = some x then true
      else if s.visible_child = some x then false
      else s.child_visible x := by
  cases child <;> cases hv : s.visible_child <;> cases hf : first_visible s <;>
    simp [set_visible_child, hv, hf, g_object_notify, gtk_widget_queue_resize,
      gtk_widget_set_child_visible, setFlag, eq_comm]

/-- The first visible child is a child, and its visibility flag is set. -/
theorem first_visible_some {s : GdStack} {c : GtkWidget} (h : first_visible s = some c) :
    c ∈ s.children ∧ s.visible c = true := by
  unfold first_visible gtk_widget_get_visible at h
  exact ⟨List.mem_of_find?_eq_some h, by simpa using List.find?_some h⟩

/-- No first visible child: no child has its visibility flag set. -/
theorem first_visible_none {s : GdStack} (h : first_visible s = none) :
    ∀ c ∈ s.children, s.visible c = false := by
  unfold first_visible gtk_widget_get_visible at h
  intro c hc
  have := List.find?_eq_none.mp h c hc
  simpa using this



/-! ### The invariant is kept by every operation -/

theorem StackInv_queue_resize {s : GdStack} (h : StackInv s) :
    StackInv (gtk_widget_queue_resize s) := h

theorem StackInv_cond_queue_resize {s : GdStack} (h : StackInv s) :
    StackInv (if s.homogenous = true then gtk_widget_queue_resize s else s) := by
  split
  · exact StackInv_queue_resize h
  · exact h

/-- The routine `set_visible_child` establishes the invariant when the widget
handed to it is listed and every listed widget whose child-visible flag is
set is the old visible child or the widget handed in. -/
theorem set_visible_child_inv (s : GdStack) (child : Option GtkWidget)
    (hnd : s.children.Nodup)
    (hchild : ∀ c, child = some c → c ∈ s.children)
    (hflag : ∀ x ∈ s.children, s.child_visible x = true →
      s.visible_child = some x ∨ child = some x) :
    StackInv (set_visible_child s child) := by
  have hr : ∀ c, (set_visible_child s child).visible_child = some c →
      c ∈ s.children ∧ (child = some c ∨ child = none) := by
    intro c hc
    cases child with
    | none =>
      rw [set_visible_child_none_visible_child] at hc
      exact ⟨(first_visible_some hc).1, Or.inr rfl⟩
    | some d =>
      rw [set_visible_child_some_visible_child] at hc
      have hdc : d = c := Option.some.inj hc
      subst hdc
      exact ⟨hchild d rfl, Or.inl rfl⟩
  refine ⟨by rw [set_visible_child_children]; exact hnd, ?_, ?_⟩
  · intro c hc
    rw [set_visible_child_children]
    exact (hr c hc).1
  · intro x hx
    rw [set_visible_child_children] at hx
    rw [set_visible_child_child_visible]
    by_cases h1 : (set_visible_child s child).visible_child = some x
    · simp [h1]
    · by_cases h2 : s.visible_child = some x
      · simp [h1, h2]
      · simp only [h1, h2, if_false, iff_false]
        intro hcv
        rcases hflag x hx hcv with h | h
        · exact h2 h
        · apply h1
          rw [h, set_visible_child_some_visible_child]

theorem StackInv_new (visible child_visible : GtkWidget → Bool)
    (name : GtkWidget → Option String) :
    StackInv (gd_stack_new visible child_visible name) := by
  simp [StackInv, gd_stack_new]

theorem StackInv_add {s : GdStack} (h : StackInv s) (c : GtkWidget)
    (hc : c ∉ s.children) : StackInv (gd_stack_add s (some c)) := by
  obtain ⟨hnd, hmem, hflag⟩ := h
  have hnd2 : (s.children ++ [c]).Nodup := by
    rw [List.nodup_append]
    refine ⟨hnd, List.nodup_singleton c, ?_⟩
    intro a ha hb
    rw [List.mem_singleton] at hb
    exact hc (hb ▸ ha)
  unfold gd_stack_add
  simp only [gtk_widget_set_parent, gtk_widget_get_visible]
  split
  · rename_i hcond
    apply StackInv_cond_queue_resize
    apply set_visible_child_inv
    · exact hnd2
    · intro d hd
      simp [Option.some.inj hd]
    · intro x hx hcv
      simp only [List.mem_append, List.mem_singleton] at hx
      rcases hx with hx | hx
      · exact Or.inl ((hflag x hx).mp hcv)
      · exact Or.inr (by rw [hx])
  · apply StackInv_cond_queue_resize
    refine ⟨hnd2, ?_, ?_⟩
    · intro d hd
      simp only [gtk_widget_set_child_visible] at hd ⊢
      exact List.mem_append_left _ (hmem d hd)
    · intro x hx
      simp only [gtk_widget_set_child_visible, setFlag, List.mem_append,
        List.mem_singleton] at hx ⊢
      by_cases hxc : x = c
      · subst hxc
        simp only [if_true, Bool.false_eq_true, false_iff]
        intro hv
        exact hc (hmem x hv)
      · simp only [hxc, if_false]
        rcases hx with hx | hx
        · exact hflag x hx
        · exact absurd hx hxc

theorem StackInv_remove {s : GdStack} (h : StackInv s) (c : GtkWidget) :
    StackInv (gd_stack_remove s c) := by
  obtain ⟨hnd, hmem, hflag⟩ := h
  unfold gd_stack_remove
  split
  · rename_i hin
    simp only [gtk_widget_unparent]
    split
    · apply StackInv_cond_queue_resize
      apply set_visible_child_inv
      · exact hnd.erase c
      · intro d hd
        cases hd
      · intro x hx hcv
        have hxc : x ≠ c := fun e => (List.Nodup.not_mem_erase hnd) (e ▸ hx)
        have hx2 : x ∈ s.children := List.mem_of_mem_erase hx
        simp only [setFlag, hxc, if_false] at hcv
        exact Or.inl ((hflag x hx2).mp hcv)
    · rename_i hne
      apply StackInv_cond_queue_resize
      refine ⟨hnd.erase c, ?_, ?_⟩
      · intro d hd
        simp only at hd ⊢
        have hdc : d ≠ c := fun e => hne (by rw [hd, e])
        exact (List.mem_erase_of_ne hdc).mpr (hmem d hd)
      · intro x hx
        simp only at hx ⊢
        have hxc : x ≠ c := fun e => (List.Nodup.not_mem_erase hnd) (e ▸ hx)
        have hx2 : x ∈ s.children := List.mem_of_mem_erase hx
        simp only [setFlag, hxc, if_false]
        exact hflag x hx2
  · exact ⟨hnd, hmem, hflag⟩

theorem StackInv_set_visible_child_of_mem {s : GdStack} (h : StackInv s) (c : GtkWidget)
    (hc : c ∈ s.children) : StackInv (set_visible_child s (some c)) := by
  apply set_visible_child_inv s (some c) h.1
  · intro d hd
    rw [← Option.some.inj hd]
    exact hc
  · intro x hx hcv
    exact Or.inl ((h.2.2 x hx).mp hcv)

theorem StackInv_set_visible_child_none {s : GdStack} (h : StackInv s) :
    StackInv (set_visible_child s none) := by
  apply set_visible_child_inv s none h.1
  · intro d hd
    cases hd
  · intro x hx hcv
    exact Or.inl ((h.2.2 x hx).mp hcv)

theorem StackInv_gd_stack_set_visible_child {s : GdStack} (h : StackInv s)
    (child : Option GtkWidget) : StackInv (gd_stack_set_visible_child s child) := by
  unfold gd_stack_set_visible_child
  cases child with
  | none => exact h
  | some c =>
    simp only
    split
    · rename_i hc
      split
      · exact StackInv_set_visible_child_of_mem h c hc
      · exact h
    · exact h

theorem StackInv_gd_stack_set_visible_child_name {s : GdStack} (h : StackInv s)
    (name : Option String) : StackInv (gd_stack_set_visible_child_name s name) := by
  unfold gd_stack_set_visible_child_name
  cases name with
  | none => exact h
  | some n =>
    simp only
    split
    · rename_i c hfind
      split
      · exact StackInv_set_visible_child_of_mem h c (List.mem_of_find?_eq_some hfind)
      · exact h
    · exact h

theorem StackInv_notify_cb {s : GdStack} (h : StackInv s) (c : GtkWidget)
    (hc : c ∈ s.children) : StackInv (stack_child_visibility_notify_cb s c) := by
  unfold stack_child_visibility_notify_cb
  split
  · exact StackInv_set_visible_child_of_mem h c hc
  · split
    · exact StackInv_set_visible_child_none h
    · exact h

theorem StackInv_set_visible {s : GdStack} (h : StackInv s) (w : GtkWidget) (b : Bool) :
    StackInv (gtk_widget_set_visible s w b) := by
  unfold gtk_widget_set_visible
  split
  · exact h
  · have h1 : StackInv { s with visible := setFlag s.visible w b } := h
    simp only
    split
    · rename_i hw
      exact StackInv_notify_cb h1 w hw
    · exact h1

theorem StackInv_set_homogenous {s : GdStack} (h : StackInv s) (b : Bool) :
    StackInv (gd_stack_set_homogenous s b) := by
  unfold gd_stack_set_homogenous
  split
  · exact h
  · exact h

/-- Every reachable stack state satisfies the invariant. -/
theorem Reachable.inv {s : GdStack} (h : Reachable s) : StackInv s := by
  induction h with
  | new visible child_visible name => exact StackInv_new visible child_visible name
  | add child _ hc ih => exact StackInv_add ih child hc
  | remove child _ ih => exact StackInv_remove ih child
  | set_visible_child child _ ih => exact StackInv_gd_stack_set_visible_child ih child
  | set_visible_child_name name _ ih => exact StackInv_gd_stack_set_visible_child_name ih name
  | set_visible w b _ ih => exact StackInv_set_visible ih w b
  | set_homogenous b _ ih => exact StackInv_set_homogenous ih b

/-! ### Helper facts -/

/-- In a list without repetition, a predicate true of exactly one listed
element filters the list down to that element. -/
theorem filter_eq_singleton (p : GtkWidget → Bool) (v : GtkWidget) :
    ∀ l : List GtkWidget, l.Nodup → v ∈ l → (∀ c ∈ l, p c = true ↔ c = v) →
      l.filter p = [v] := by
  intro l
  induction l with
  | nil => intro _ hv; cases hv
  | cons a t ih =>
    intro hnd hv hp
    rw [List.nodup_cons] at hnd
    by_cases hav : a = v
    · subst hav
      have hpa : p a = true := (hp a (List.mem_cons_self a t)).mpr rfl
      have ht : t.filter p = [] := by
        rw [List.filter_eq_nil_iff]
        intro c hc hpc
        have hca : c = a := (hp c (List.mem_cons_of_mem a hc)).mp hpc
        exact hnd.1 (hca ▸ hc)
      rw [List.filter_cons_of_pos hpa, ht]
    · have hpa : ¬ p a = true := fun h => hav ((hp a (List.mem_cons_self a t)).mp h)
      have hvt : v ∈ t := by
        rcases List.mem_cons.mp hv with h | h
        · exact absurd h.symm hav
        · exact h
      rw [List.filter_cons_of_neg hpa]
      exact ih hnd.2 hvt (fun c hc => hp c (List.mem_cons_of_mem a hc))

/-- The loop test of `gd_stack_set_visible_child_name` holds of a widget
exactly when the widget's name is the name asked for. -/
theorem name_matches_eq (s : GdStack) (n : String) :
    name_matches s n = fun w => decide (s.name w = some n) := by
  funext w
  unfold name_matches gtk_widget_get_name
  cases h : s.name w <;> simp

theorem reachable_scenario1 : Reachable scenario1 :=
  Reachable.add 2
    (Reachable.add 1
      (Reachable.add 0 (Reachable.new _ _ _) (by decide))
      (by decide))
    (by decide)

/-! ### The claims about the stack -/

/-- C1: in every stack state reachable from a new stack by add (of a widget
not yet in the stack), remove, set_visible_child, set_visible_child_name,
set_homogenous and visibility changes of widgets (each followed by the stack's
visibility listener when the widget is a child), `visible_child` is null or an
element of `children`. -/
theorem visible_child_null_or_member (s : GdStack) (h : Reachable s) :
    s.visible_child = none ∨ ∃ c, s.visible_child = some c ∧ c ∈ s.children := by
  cases hv : s.visible_child with
  | none => exact Or.inl rfl
  | some c => exact Or.inr ⟨c, rfl, h.inv.2.1 c hv⟩

/-- C1 at a concrete state: scenario 1 after A was hidden and then removed. -/
theorem visible_child_null_or_member_witness :
    (gd_stack_remove (gtk_widget_set_visible scenario1 0 false) 0).visible_child = none ∨
    ∃ c, (gd_stack_remove (gtk_widget_set_visible scenario1 0 false) 0).visible_child = some c ∧
      c ∈ (gd_stack_remove (gtk_widget_set_visible scenario1 0 false) 0).children :=
  visible_child_null_or_member _
    (Reachable.remove 0 (Reachable.set_visible 0 false reachable_scenario1))

/-- C2: in every reachable stack state, when `visible_child` is non-null
exactly one element of `children` has its child-visible flag set and it is
`visible_child` (the children whose flag is set form the one-element list
holding it); when `visible_child` is null no element of `children` has its
child-visible flag set. -/
theorem child_visible_only_on_visible_child (s : GdStack) (h : Reachable s) :
    (∀ v, s.visible_child = some v →
      s.children.filter (fun c => s.child_visible c) = [v]) ∧
    (s.visible_child = none →
      s.children.filter (fun c => s.child_visible c) = []) := by
  obtain ⟨hnd, hmem, hflag⟩ := h.inv
  constructor
  · intro v hv
    apply filter_eq_singleton _ v s.children hnd (hmem v hv)
    intro c hc
    rw [hflag c hc, hv]
    exact ⟨fun e => (Option.some.inj e).symm, fun e => by rw [e]⟩
  · intro hv
    rw [List.filter_eq_nil_iff]
    intro c hc hcv
    have := (hflag c hc).mp hcv
    rw [hv] at this
    cases this

/-- C2 at a concrete state: scenario 1 after C was made the visible child and
A was removed. -/
theorem child_visible_only_on_visible_child_witness :
    (∀ v, (gd_stack_remove (gd_stack_set_visible_child scenario1 (some 2)) 0).visible_child
        = some v →
      (gd_stack_remove (gd_stack_set_visible_child scenario1 (some 2)) 0).children.filter
        (fun c => (gd_stack_remove (gd_stack_set_visible_child scenario1 (some 2)) 0).child_visible c)
        = [v]) ∧
    ((gd_stack_remove (gd_stack_set_visible_child scenario1 (some 2)) 0).visible_child = none →
      (gd_stack_remove (gd_stack_set_visible_child scenario1 (some 2)) 0).children.filter
        (fun c => (gd_stack_remove (gd_stack_set_visible_child scenario1 (some 2)) 0).child_visible c)
        = []) :=
  child_visible_only_on_visible_child _
    (Reachable.remove 0 (Reachable.set_visible_child (some 2) reachable_scenario1))

/-- C3 (what the code does): hiding a widget never changes `visible_child`,
because both branches of the visibility listener require the notified child
to be visible.  In scenario 1 (children A, B, C all visible, visible child A),
after A is hidden the first visible child is B but `visible_child` is still
A. -/
theorem hide_current_keeps_visible_child :
    (∀ (s : GdStack) (w : GtkWidget),
      (gtk_widget_set_visible s w false).visible_child = s.visible_child) ∧
    scenario1.children = [0, 1, 2] ∧
    scenario1.visible_child = some 0 ∧
    (gtk_widget_set_visible scenario1 0 false).visible 0 = false ∧
    first_visible (gtk_widget_set_visible scenario1 0 false) = some 1 ∧
    (gtk_widget_set_visible scenario1 0 false).visible_child = some 0 := by
  refine ⟨?_, by decide, by decide, by decide, by decide, by decide⟩
  intro s w
  unfold gtk_widget_set_visible
  split
  · rfl
  · simp only
    split
    · unfold stack_child_visibility_notify_cb
      simp [gtk_widget_get_visible, setFlag]
    · rfl

/-- C4: the public `gd_stack_set_visible_child (stack, child)` with a non-null
child.  When the child is in `children` and its visibility flag is set:
afterwards `visible_child` is the child, its child-visible flag is set, the
child-visible flag of a different previous visible child is cleared, exactly
the two notifications "visible-child" and "visible-child-name" are emitted,
and `children` and `homogenous` are as before.  Otherwise the whole state is
unchanged (so nothing is emitted). -/
theorem gd_stack_set_visible_child_post (s : GdStack) (child : GtkWidget) :
    (child ∈ s.children ∧ s.visible child = true →
      (gd_stack_set_visible_child s (some child)).visible_child = some child ∧
      (gd_stack_set_visible_child s (some child)).child_visible child = true ∧
      (∀ p, s.visible_child = some p → p ≠ child →
        (gd_stack_set_visible_child s (some child)).child_visible p = false) ∧
      (gd_stack_set_visible_child s (some child)).notified =
        s.notified ++ [GdStackProperty.PROP_VISIBLE_CHILD,
          GdStackProperty.PROP_VISIBLE_CHILD_NAME] ∧
      (gd_stack_set_visible_child s (some child)).children = s.children ∧
      (gd_stack_set_visible_child s (some child)).homogenous = s.homogenous) ∧
    (¬ (child ∈ s.children ∧ s.visible child = true) →
      gd_stack_set_visible_child s (some child) = s) := by
  constructor
  · rintro ⟨hc, hv⟩
    have e : gd_stack_set_visible_child s (some child) = set_visible_child s (some child) := by
      simp [gd_stack_set_visible_child, gtk_widget_get_visible, hc, hv]
    rw [e]
    refine ⟨set_visible_child_some_visible_child s child, ?_, ?_,
      set_visible_child_notified s _, set_visible_child_children s _,
      set_visible_child_homogenous s _⟩
    · rw [set_visible_child_child_visible, set_visible_child_some_visible_child]
      simp
    · intro p hp hne
      rw [set_visible_child_child_visible, set_visible_child_some_visible_child]
      have : ¬ (some child = some p) := fun e => hne (Option.some.inj e).symm
      simp [this, hp]
  · intro h
    unfold gd_stack_set_visible_child
    simp only [gtk_widget_get_visible]
    split
    · rename_i hc
      split
      · rename_i hv
        exact absurd ⟨hc, hv⟩ h
      · rfl
    · rfl

/-- C4 at a concrete input: in scenario 1 (visible child A), C is promoted. -/
theorem gd_stack_set_visible_child_post_witness :
    (gd_stack_set_visible_child scenario1 (some 2)).visible_child = some 2 ∧
    (gd_stack_set_visible_child scenario1 (some 2)).child_visible 2 = true ∧
    (gd_stack_set_visible_child scenario1 (some 2)).child_visible 0 = false ∧
    (gd_stack_set_visible_child scenario1 (some 2)).notified =
      scenario1.notified ++ [GdStackProperty.PROP_VISIBLE_CHILD,
        GdStackProperty.PROP_VISIBLE_CHILD_NAME] :=
  have h := (gd_stack_set_visible_child_post scenario1 2).1 ⟨by decide, by decide⟩
  ⟨h.1, h.2.1, h.2.2.1 0 (by decide) (by decide), h.2.2.2.1⟩

/-- C5: `gd_stack_add (stack, child)` with a non-null child appends the child
at the end of `children`.  When the old `visible_child` is null and the child's
visibility flag is set, the child becomes `visible_child` and its child-visible
flag is set; otherwise `visible_child` is unchanged and the child's
child-visible flag is cleared.  Initial pick: adding three distinct widgets A,
B, C whose visibility flags are set to a new stack, in that order, gives
children A, B, C, visible child A, child-visible set on A and cleared on B and
C. -/
theorem gd_stack_add_post :
    (∀ (s : GdStack) (child : GtkWidget),
      (gd_stack_add s (some child)).children = s.children ++ [child] ∧
      (s.visible_child = none ∧ s.visible child = true →
        (gd_stack_add s (some child)).visible_child = some child ∧
        (gd_stack_add s (some child)).child_visible child = true) ∧
      (¬ (s.visible_child = none ∧ s.visible child = true) →
        (gd_stack_add s (some child)).visible_child = s.visible_child ∧
        (gd_stack_add s (some child)).child_visible child = false)) ∧
    (∀ (visible child_visible : GtkWidget → Bool) (name : GtkWidget → Option String)
        (a b c : GtkWidget),
      a ≠ b → a ≠ c → b ≠ c →
      visible a = true → visible b = true → visible c = true →
      (gd_stack_add (gd_stack_add (gd_stack_add
          (gd_stack_new visible child_visible name) (some a)) (some b)) (some c)).children
        = [a, b, c] ∧
      (gd_stack_add (gd_stack_add (gd_stack_add
          (gd_stack_new visible child_visible name) (some a)) (some b)) (some c)).visible_child
        = some a ∧
      (gd_stack_add (gd_stack_add (gd_stack_add
          (gd_stack_new visible child_visible name) (some a)) (some b)) (some c)).child_visible a
        = true ∧
      (gd_stack_add (gd_stack_add (gd_stack_add
          (gd_stack_new visible child_visible name) (some a)) (some b)) (some c)).child_visible b
        = false ∧
      (gd_stack_add (gd_stack_add (gd_stack_add
          (gd_stack_new visible child_visible name) (some a)) (some b)) (some c)).child_visible c
        = false) := by
  have key : ∀ (s : GdStack) (child : GtkWidget),
      (gd_stack_add s (some child)).children = s.children ++ [child] ∧
      (s.visible_child = none ∧ s.visible child = true →
        (gd_stack_add s (some child)).visible_child = some child ∧
        (gd_stack_add s (some child)).child_visible child = true) ∧
      (¬ (s.visible_child = none ∧ s.visible child = true) →
        (gd_stack_add s (some child)).visible_child = s.visible_child ∧
        (gd_stack_add s (some child)).child_visible child = false) ∧
      (∀ x, x ≠ child →
        (gd_stack_add s (some child)).child_visible x = s.child_visible x) := by
    intro s child
    unfold gd_stack_add
    simp only [gtk_widget_set_parent, gtk_widget_get_visible]
    by_cases hcond : s.visible_child = none ∧ s.visible child = true
    · rw [if_pos hcond]
      refine ⟨?_, ?_, fun h => absurd hcond h, ?_⟩
      · split <;> simp [gtk_widget_queue_resize, set_visible_child_children]
      · intro _
        constructor
        · split <;> simp [gtk_widget_queue_resize, set_visible_child_some_visible_child]
        · split <;>
            simp [gtk_widget_queue_resize, set_visible_child_child_visible,
              set_visible_child_some_visible_child]
      · intro x hx
        have hx2 : ¬ (child = x) := fun e => hx e.symm
        split <;>
          simp [gtk_widget_queue_resize, set_visible_child_child_visible,
            set_visible_child_some_visible_child, hx2, hcond.1]
    · rw [if_neg hcond]
      refine ⟨?_, fun h => absurd h hcond, ?_, ?_⟩
      · split <;> simp [gtk_widget_queue_resize, gtk_widget_set_child_visible]
      · intro _
        constructor
        · split <;> simp [gtk_widget_queue_resize, gtk_widget_set_child_visible]
        · split <;> simp [gtk_widget_queue_resize, gtk_widget_set_child_visible, setFlag]
      · intro x hx
        split <;> simp [gtk_widget_queue_resize, gtk_widget_set_child_visible, setFlag, hx]
  refine ⟨fun s child => ⟨(key s child).1, (key s child).2.1, (key s child).2.2.1⟩, ?_⟩
  intro visible child_visible name a b c hab hac hbc ha hb hc
  have k0 := key (gd_stack_new visible child_visible name) a
  have h0v := (k0.2.1 ⟨rfl, ha⟩)
  have k1 := key (gd_stack_add (gd_stack_new visible child_visible name) (some a)) b
  have n1 : ¬ ((gd_stack_add (gd_stack_new visible child_visible name) (some a)).visible_child
      = none ∧ (gd_stack_add (gd_stack_new visible child_visible name) (some a)).visible b
      = true) := by
    rw [h0v.1]; simp
  have h1 := k1.2.2.1 n1
  have k2 := key (gd_stack_add (gd_stack_add (gd_stack_new visible child_visible name)
    (some a)) (some b)) c
  have n2 : ¬ ((gd_stack_add (gd_stack_add (gd_stack_new visible child_visible name)
      (some a)) (some b)).visible_child = none ∧
      (gd_stack_add (gd_stack_add (gd_stack_new visible child_visible name)
      (some a)) (some b)).visible c = true) := by
    rw [h1.1, h0v.1]; simp
  have h2 := k2.2.2.1 n2
  refine ⟨?_, ?_, ?_, ?_, h2.2⟩
  · rw [k2.1, k1.1, k0.1]; rfl
  · rw [h2.1, h1.1, h0v.1]
  · rw [k2.2.2.2 a hac, k1.2.2.2 a hab]
    exact h0v.2
  · rw [k2.2.2.2 b hbc]
    exact h1.2

/-- C5 at a concrete input: the three additions of scenario 1. -/
theorem gd_stack_add_post_witness :
    scenario1.children = [0, 1, 2] ∧ scenario1.visible_child = some 0 ∧
    scenario1.child_visible 0 = true ∧ scenario1.child_visible 1 = false ∧
    scenario1.child_visible 2 = false :=
  gd_stack_add_post.2 _ _ _ 0 1 2 (by decide) (by decide) (by decide) rfl rfl rfl

/-- C6: `gd_stack_remove (stack, child)`.  When the child is not in `children`
the whole state is unchanged (so nothing is emitted).  When it is, the new
`children` is the old list with the child's first occurrence deleted, a
sublist of the old one (order kept), no longer holding the child when the old
list had no repetition; the new `visible_child` is the old one when that was
not the child, and otherwise the first remaining child, in list order, whose
visibility flag is set, null when there is none.  Remove current: in scenario 1
(children A, B, C all visible, visible child A) removing A leaves the two
children B, C with visible child B. -/
theorem gd_stack_remove_post :
    (∀ (s : GdStack) (child : GtkWidget), child ∉ s.children →
      gd_stack_remove s child = s) ∧
    (∀ (s : GdStack) (child : GtkWidget), child ∈ s.children →
      (gd_stack_remove s child).children = s.children.erase child ∧
      (gd_stack_remove s child).children.Sublist s.children ∧
      (gd_stack_remove s child).children.length + 1 = s.children.length ∧
      (s.children.Nodup → child ∉ (gd_stack_remove s child).children) ∧
      (s.visible_child ≠ some child →
        (gd_stack_remove s child).visible_child = s.visible_child) ∧
      (s.visible_child = some child →
        (gd_stack_remove s child).visible_child =
          (s.children.erase child).find? (fun w => s.visible w))) ∧
    (scenario1.children = [0, 1, 2] ∧ scenario1.visible_child = some 0 ∧
      (gd_stack_remove scenario1 0).visible_child = some 1 ∧
      (gd_stack_remove scenario1 0).children = [1, 2] ∧
      (gd_stack_remove scenario1 0).children.length = 2) := by
  refine ⟨?_, ?_, by decide⟩
  · intro s child h
    simp [gd_stack_remove, h]
  · intro s child h
    have hch : (gd_stack_remove s child).children = s.children.erase child := by
      unfold gd_stack_remove
      rw [if_pos h]
      simp only [gtk_widget_unparent]
      split <;> split <;> simp [gtk_widget_queue_resize, set_visible_child_children]
    refine ⟨hch, ?_, ?_, ?_, ?_, ?_⟩
    · rw [hch]
      exact List.erase_sublist child s.children
    · rw [hch, List.length_erase_of_mem h]
      have : 0 < s.children.length := List.length_pos_of_mem h
      omega
    · intro hnd
      rw [hch]
      exact List.Nodup.not_mem_erase hnd
    · intro hne
      unfold gd_stack_remove
      rw [if_pos h]
      simp only [gtk_widget_unparent]
      rw [if_neg hne]
      split <;> simp [gtk_widget_queue_resize]
    · intro he
      unfold gd_stack_remove
      rw [if_pos h]
      simp only [gtk_widget_unparent]
      rw [if_pos he]
      split <;>
        simp [gtk_widget_queue_resize, set_visible_child_none_visible_child, first_visible,
          gtk_widget_get_visible]

/-- C7 as stated fails: in scenario 1 after B was made the visible child by a
first `gd_stack_set_visible_child (stack, B)`, a second such call in a row
emits "visible-child" and "visible-child-name" again. -/
theorem set_visible_child_twice_counterexample :
    (gd_stack_set_visible_child scenario1 (some 1)).visible_child = some 1 ∧
    (gd_stack_set_visible_child (gd_stack_set_visible_child scenario1 (some 1))
        (some 1)).notified =
      (gd_stack_set_visible_child scenario1 (some 1)).notified ++
        [GdStackProperty.PROP_VISIBLE_CHILD, GdStackProperty.PROP_VISIBLE_CHILD_NAME] ∧
    ¬ ((gd_stack_set_visible_child (gd_stack_set_visible_child scenario1 (some 1))
        (some 1)).notified =
      (gd_stack_set_visible_child scenario1 (some 1)).notified) := by
  decide

/-- C7 amended: for a child x that is in `children` and has its visibility
flag set, `gd_stack_set_visible_child (stack, x)` called twice in a row emits
"visible-child" and "visible-child-name" on each call; the second call changes
nothing else of the selection: `visible_child` (x), `children`, every
child-visible flag, every visibility flag and `homogenous` are as after the
first call. -/
theorem set_visible_child_twice (s : GdStack) (x : GtkWidget)
    (hx : x ∈ s.children) (hv : s.visible x = true) :
    (gd_stack_set_visible_child s (some x)).notified =
      s.notified ++
        [GdStackProperty.PROP_VISIBLE_CHILD, GdStackProperty.PROP_VISIBLE_CHILD_NAME] ∧
    (gd_stack_set_visible_child (gd_stack_set_visible_child s (some x)) (some x)).notified =
      (gd_stack_set_visible_child s (some x)).notified ++
        [GdStackProperty.PROP_VISIBLE_CHILD, GdStackProperty.PROP_VISIBLE_CHILD_NAME] ∧
    (gd_stack_set_visible_child s (some x)).visible_child = some x ∧
    (gd_stack_set_visible_child (gd_stack_set_visible_child s (some x)) (some x)).visible_child =
      some x ∧
    (gd_stack_set_visible_child (gd_stack_set_visible_child s (some x)) (some x)).children =
      (gd_stack_set_visible_child s (some x)).children ∧
    (gd_stack_set_visible_child (gd_stack_set_visible_child s (some x)) (some x)).child_visible =
      (gd_stack_set_visible_child s (some x)).child_visible ∧
    (gd_stack_set_visible_child (gd_stack_set_visible_child s (some x)) (some x)).visible =
      (gd_stack_set_visible_child s (some x)).visible ∧
    (gd_stack_set_visible_child (gd_stack_set_visible_child s (some x)) (some x)).homogenous =
      (gd_stack_set_visible_child s (some x)).homogenous := by
  have e : ∀ t : GdStack, x ∈ t.children → t.visible x = true →
      gd_stack_set_visible_child t (some x) = set_visible_child t (some x) := by
    intro t ht hvt
    simp [gd_stack_set_visible_child, gtk_widget_get_visible, ht, hvt]
  rw [e s hx hv]
  rw [e (set_visible_child s (some x))
    (by rw [set_visible_child_children]; exact hx)
    (by rw [set_visible_child_visible]; exact hv)]
  refine ⟨set_visible_child_notified _ _, set_visible_child_notified _ _,
    set_visible_child_some_visible_child s x, set_visible_child_some_visible_child _ x,
    set_visible_child_children _ _, ?_, set_visible_child_visible _ _,
    set_visible_child_homogenous _ _⟩
  funext y
  rw [set_visible_child_child_visible (set_visible_child s (some x)) (some x) y]
  rw [set_visible_child_some_visible_child, set_visible_child_some_visible_child]
  by_cases hy : some x = some y
  · have hxy : x = y := Option.some.inj hy
    subst hxy
    rw [set_visible_child_child_visible, set_visible_child_some_visible_child]
    simp
  · simp [hy]

/-- C7 amended, at a concrete input: scenario 1 and x = A, already the visible
child. -/
theorem set_visible_child_twice_witness :
    (gd_stack_set_visible_child scenario1 (some 0)).notified =
      scenario1.notified ++
        [GdStackProperty.PROP_VISIBLE_CHILD, GdStackProperty.PROP_VISIBLE_CHILD_NAME] ∧
    (gd_stack_set_visible_child (gd_stack_set_visible_child scenario1 (some 0))
        (some 0)).notified =
      (gd_stack_set_visible_child scenario1 (some 0)).notified ++
        [GdStackProperty.PROP_VISIBLE_CHILD, GdStackProperty.PROP_VISIBLE_CHILD_NAME] :=
  have h := set_visible_child_twice scenario1 0 (by decide) (by decide)
  ⟨h.1, h.2.1⟩

/-- C8 as stated fails: in scenario 1 after B was made the visible child, the
public `gd_stack_set_visible_child (stack, NULL)` leaves B the visible child,
although the first child whose visibility flag is set is A. -/
theorem gd_stack_set_visible_child_null_counterexample :
    (gd_stack_set_visible_child (gd_stack_set_visible_child scenario1 (some 1)) none).visible_child
        = some 1 ∧
    first_visible
        (gd_stack_set_visible_child (gd_stack_set_visible_child scenario1 (some 1)) none)
        = some 0 ∧
    ¬ ((gd_stack_set_visible_child (gd_stack_set_visible_child scenario1 (some 1)) none).visible_child
        = first_visible
          (gd_stack_set_visible_child (gd_stack_set_visible_child scenario1 (some 1)) none)) := by
  decide

/-- C8 amended: the public `gd_stack_set_visible_child` called with a null
child leaves the whole stack state unchanged; it is the internal routine
`set_visible_child` that auto-picks when handed null: afterwards
`visible_child` is the first element of `children`, in list order, whose
visibility flag is set, and null when there is none, with `children` and the
visibility flags as before. -/
theorem gd_stack_set_visible_child_null (s : GdStack) :
    gd_stack_set_visible_child s none = s ∧
    (set_visible_child s none).visible_child = s.children.find? (fun w => s.visible w) ∧
    (set_visible_child s none).children = s.children ∧
    (set_visible_child s none).visible = s.visible :=
  ⟨rfl, set_visible_child_none_visible_child s, set_visible_child_children s none,
    set_visible_child_visible s none⟩

/-- C9: `gd_stack_set_visible_child_name (stack, n)` with a non-null name n.
When the first child, in list order, whose name is n exists and has its
visibility flag set, afterwards `gd_stack_get_visible_child_name` answers n
and `gd_stack_get_visible_child` answers that child.  When no child is named
n, or the first child named n has its visibility flag cleared, the stack state
is unchanged.  Witness: in scenario 1 (A named "a", B named "b", both
visible, visible child A) setting the name "b" makes B the visible child and
the name read back is "b". -/
theorem visible_child_name_round_trip :
    (∀ (s : GdStack) (n : String) (c : GtkWidget),
      s.children.find? (fun w => decide (s.name w = some n)) = some c →
      s.visible c = true →
      gd_stack_get_visible_child_name (gd_stack_set_visible_child_name s (some n)) = some n ∧
      gd_stack_get_visible_child (gd_stack_set_visible_child_name s (some n)) = some c) ∧
    (∀ (s : GdStack) (n : String),
      s.children.find? (fun w => decide (s.name w = some n)) = none →
      gd_stack_set_visible_child_name s (some n) = s) ∧
    (∀ (s : GdStack) (n : String) (c : GtkWidget),
      s.children.find? (fun w => decide (s.name w = some n)) = some c →
      s.visible c = false →
      gd_stack_set_visible_child_name s (some n) = s) ∧
    (scenario1.name 0 = some "a" ∧ scenario1.name 1 = some "b" ∧
      scenario1.visible 0 = true ∧ scenario1.visible 1 = true ∧
      scenario1.visible_child = some 0 ∧
      gd_stack_get_visible_child_name
        (gd_stack_set_visible_child_name scenario1 (some "b")) = some "b" ∧
      gd_stack_get_visible_child
        (gd_stack_set_visible_child_name scenario1 (some "b")) = some 1) := by
  refine ⟨?_, ?_, ?_, by decide⟩
  · intro s n c hfind hv
    have hname : s.name c = some n := by simpa using List.find?_some hfind
    have e : gd_stack_set_visible_child_name s (some n) = set_visible_child s (some c) := by
      simp [gd_stack_set_visible_child_name, name_matches_eq, hfind, gtk_widget_get_visible, hv]
    rw [e]
    unfold gd_stack_get_visible_child_name gd_stack_get_visible_child gtk_widget_get_name
    rw [set_visible_child_some_visible_child, set_visible_child_names]
    exact ⟨hname, rfl⟩
  · intro s n hfind
    simp [gd_stack_set_visible_child_name, name_matches_eq, hfind]
  · intro s n c hfind hv
    simp [gd_stack_set_visible_child_name, name_matches_eq, hfind, gtk_widget_get_visible, hv]

/-! ## Theorems: GdStackSwitcher -/

/-- Inserting into the table keeps every key it had. -/
theorem g_hash_table_insert_keys (t : List (GtkWidget × Nat)) (key : GtkWidget) (value : Nat)
    (k : GtkWidget) (hk : k ∈ t.map Prod.fst) :
    k ∈ (g_hash_table_insert t key value).map Prod.fst := by
  unfold g_hash_table_insert
  split
  · rw [List.mem_map] at hk ⊢
    obtain ⟨e, he, hek⟩ := hk
    by_cases h : e.1 = key
    · exact ⟨(key, value), List.mem_map.mpr ⟨e, he, by simp [h]⟩, by rw [← hek, h]⟩
    · exact ⟨e, List.mem_map.mpr ⟨e, he, by simp [h]⟩, hek⟩
  · rw [List.map_append]
    exact List.mem_append_left _ hk

theorem add_child_keeps_keys (w : GdStackSwitcher) (widget k : GtkWidget)
    (hk : k ∈ button_keys w) : k ∈ button_keys (add_child w widget) := by
  unfold button_keys add_child
  cases w.title widget <;> exact g_hash_table_insert_keys _ _ _ k hk

theorem foldl_add_child_keeps_keys (l : List GtkWidget) :
    ∀ (w : GdStackSwitcher) (k : GtkWidget), k ∈ button_keys w →
      k ∈ button_keys (l.foldl add_child w) := by
  induction l with
  | nil => intro w k hk; exact hk
  | cons a t ih =>
    intro w k hk
    rw [List.foldl_cons]
    exact ih _ k (add_child_keeps_keys w a k hk)

/-- C10 (what the code does): `gd_stack_switcher_set_stack` never takes a key
out of `priv->buttons`, since `clear_switcher` only destroys the buttons of
the bar.  With Stack1 (children A, B, C) and Stack2 (child D): attaching a new
switcher to Stack1 gives keys A, B, C and three buttons; `set_stack (Stack2)`
then leaves the keys A, B, C, D while the bar holds the one button for D;
`set_stack (NULL)` instead leaves the keys A, B, C with an empty bar and no
stack attached. -/
theorem set_stack_keeps_stale_buttons :
    (∀ (w : GdStackSwitcher) (stack : Option Nat) (k : GtkWidget),
      k ∈ button_keys w → k ∈ button_keys (gd_stack_switcher_set_stack w stack)) ∧
    ((two_stacks 1).children = [0, 1, 2] ∧ (two_stacks 2).children = [3] ∧
      switcher_on_stack1.stack = some 1 ∧
      button_keys switcher_on_stack1 = [0, 1, 2] ∧
      switcher_on_stack1.box.map (fun b => b.stack_child) = [some 0, some 1, some 2]) ∧
    ((gd_stack_switcher_set_stack switcher_on_stack1 (some 2)).stack = some 2 ∧
      button_keys (gd_stack_switcher_set_stack switcher_on_stack1 (some 2)) = [0, 1, 2, 3] ∧
      (gd_stack_switcher_set_stack switcher_on_stack1 (some 2)).box.map
        (fun b => b.stack_child) = [some 3]) ∧
    ((gd_stack_switcher_set_stack switcher_on_stack1 none).stack = none ∧
      button_keys (gd_stack_switcher_set_stack switcher_on_stack1 none) = [0, 1, 2] ∧
      (gd_stack_switcher_set_stack switcher_on_stack1 none).box = []) := by
  refine ⟨?_, by decide, by decide, by decide⟩
  intro w stack k hk
  unfold gd_stack_switcher_set_stack
  split
  · exact hk
  · have h1 : k ∈ button_keys
        (match w.stack with
          | some _ =>
            let w := disconnect_stack_signals w
            let w := clear_switcher w
            { w with stack := none }
          | none => w) := by
      cases hs : w.stack with
      | none => exact hk
      | some st =>
        simp only [disconnect_stack_signals, hs, clear_switcher]
        exact hk
    revert h1
    generalize (match w.stack with
          | some _ =>
            let w := disconnect_stack_signals w
            let w := clear_switcher w
            { w with stack := none }
          | none => w) = w1
    intro h1
    cases stack with
    | none => exact h1
    | some st =>
      simp only [populate_switcher, connect_stack_signals]
      have h2 := foldl_add_child_keeps_keys (w1.heap st).children
        { w1 with stack := some st } k h1
      cases hst : (List.foldl add_child { w1 with stack := some st }
          (w1.heap st).children).stack with
      | none => simpa [button_keys, hst] using h2
      | some a => simpa [button_keys, hst] using h2

/-! ## Theorems: layout of the stack -/

theorem MAX_eq_max (a b : Int) : MAX a b = max a b := by
  unfold MAX
  split <;> omega

theorem preferred_size_step_eq (s : GdStack) (child_size : GtkWidget → Int × Int)
    (acc : Int × Int) (child : GtkWidget) :
    preferred_size_step s child_size acc child =
      if takes_part s child = true then
        (max acc.1 (child_size child).1, max acc.2 (child_size child).2)
      else acc := by
  unfold preferred_size_step takes_part
  rw [MAX_eq_max, MAX_eq_max]
  cases hh : s.homogenous <;> by_cases hv : s.visible_child = some child <;>
    cases hg : gtk_widget_get_visible s child <;> simp [hv]

/-- The loop never lowers a result, and ends above the sizes of every child
that takes part. -/
theorem foldl_preferred_size_ge (s : GdStack) (child_size : GtkWidget → Int × Int) :
    ∀ (l : List GtkWidget) (acc : Int × Int),
      acc.1 ≤ (l.foldl (preferred_size_step s child_size) acc).1 ∧
      acc.2 ≤ (l.foldl (preferred_size_step s child_size) acc).2 ∧
      ∀ c ∈ l, takes_part s c = true →
        (child_size c).1 ≤ (l.foldl (preferred_size_step s child_size) acc).1 ∧
        (child_size c).2 ≤ (l.foldl (preferred_size_step s child_size) acc).2 := by
  intro l
  induction l with
  | nil => intro acc; simp
  | cons a t ih =>
    intro acc
    rw [List.foldl_cons]
    obtain ⟨h1, h2, h3⟩ := ih (preferred_size_step s child_size acc a)
    have hstep := preferred_size_step_eq s child_size acc a
    have ha1 : acc.1 ≤ (preferred_size_step s child_size acc a).1 := by
      rw [hstep]; split
      · exact le_max_left _ _
      · exact le_refl _
    have ha2 : acc.2 ≤ (preferred_size_step s child_size acc a).2 := by
      rw [hstep]; split
      · exact le_max_left _ _
      · exact le_refl _
    refine ⟨le_trans ha1 h1, le_trans ha2 h2, ?_⟩
    intro c hc htp
    rcases List.mem_cons.mp hc with hca | hct
    · subst hca
      have hb1 : (child_size c).1 ≤ (preferred_size_step s child_size acc c).1 := by
        rw [hstep, if_pos htp]; exact le_max_right _ _
      have hb2 : (child_size c).2 ≤ (preferred_size_step s child_size acc c).2 := by
        rw [hstep, if_pos htp]; exact le_max_right _ _
      exact ⟨le_trans hb1 h1, le_trans hb2 h2⟩
    · exact h3 c hct htp

/-- Each result of the loop is the value it started from or the size of a
child that takes part. -/
theorem foldl_preferred_size_attained (s : GdStack) (child_size : GtkWidget → Int × Int) :
    ∀ (l : List GtkWidget) (acc : Int × Int),
      ((l.foldl (preferred_size_step s child_size) acc).1 = acc.1 ∨
        ∃ c ∈ l, takes_part s c = true ∧
          (child_size c).1 = (l.foldl (preferred_size_step s child_size) acc).1) ∧
      ((l.foldl (preferred_size_step s child_size) acc).2 = acc.2 ∨
        ∃ c ∈ l, takes_part s c = true ∧
          (child_size c).2 = (l.foldl (preferred_size_step s child_size) acc).2) := by
  intro l
  induction l with
  | nil => intro acc; simp
  | cons a t ih =>
    intro acc
    rw [List.foldl_cons]
    obtain ⟨h1, h2⟩ := ih (preferred_size_step s child_size acc a)
    have hstep := preferred_size_step_eq s child_size acc a
    by_cases htp : takes_part s a = true
    · rw [if_pos htp] at hstep
      constructor
      · rcases h1 with h | ⟨c, hc, hcp, hce⟩
        · rw [h, hstep]
          rcases max_choice acc.1 (child_size a).1 with hm | hm
          · exact Or.inl hm
          · exact Or.inr ⟨a, List.mem_cons_self a t, htp, hm.symm⟩
        · exact Or.inr ⟨c, List.mem_cons_of_mem a hc, hcp, hce⟩
      · rcases h2 with h | ⟨c, hc, hcp, hce⟩
        · rw [h, hstep]
          rcases max_choice acc.2 (child_size a).2 with hm | hm
          · exact Or.inl hm
          · exact Or.inr ⟨a, List.mem_cons_self a t, htp, hm.symm⟩
        · exact Or.inr ⟨c, List.mem_cons_of_mem a hc, hcp, hce⟩
    · rw [if_neg htp] at hstep
      rw [hstep] at h1 h2 ⊢
      constructor
      · rcases h1 with h | ⟨c, hc, hcp, hce⟩
        · exact Or.inl h
        · exact Or.inr ⟨c, List.mem_cons_of_mem a hc, hcp, hce⟩
      · rcases h2 with h | ⟨c, hc, hcp, hce⟩
        · exact Or.inl h
        · exact Or.inr ⟨c, List.mem_cons_of_mem a hc, hcp, hce⟩

/-- With non-negative child sizes, each result of the shared body is the
maximum of the corresponding size over the children that take part, 0 when
none does. -/
theorem preferred_size_isMaxOver (s : GdStack) (child_size : GtkWidget → Int × Int)
    (hnn : ∀ c ∈ s.children, 0 ≤ (child_size c).1 ∧ 0 ≤ (child_size c).2) :
    IsMaxOver s.children (takes_part s) (fun c => (child_size c).1)
      (preferred_size s child_size).1 ∧
    IsMaxOver s.children (takes_part s) (fun c => (child_size c).2)
      (preferred_size s child_size).2 := by
  obtain ⟨_, _, hge⟩ := foldl_preferred_size_ge s child_size s.children (0, 0)
  obtain ⟨ha1, ha2⟩ := foldl_preferred_size_attained s child_size s.children (0, 0)
  unfold preferred_size
  refine ⟨⟨fun c hc hp => (hge c hc hp).1, ?_, ?_⟩, ⟨fun c hc hp => (hge c hc hp).2, ?_, ?_⟩⟩
  · rintro ⟨c0, hc0, hp0⟩
    rcases ha1 with h | h
    · refine ⟨c0, hc0, hp0, ?_⟩
      have h1 := (hge c0 hc0 hp0).1
      have h2 := (hnn c0 hc0).1
      simp only at h h1 ⊢
      omega
    · exact h
  · intro hnone
    rcases ha1 with h | ⟨c, hc, hp, _⟩
    · exact h
    · rw [hnone c hc] at hp; cases hp
  · rintro ⟨c0, hc0, hp0⟩
    rcases ha2 with h | h
    · refine ⟨c0, hc0, hp0, ?_⟩
      have h1 := (hge c0 hc0 hp0).2
      have h2 := (hnn c0 hc0).2
      simp only at h h1 ⊢
      omega
    · exact h
  · intro hnone
    rcases ha2 with h | ⟨c, hc, hp, _⟩
    · exact h
    · rw [hnone c hc] at hp; cases hp

theorem takes_part_homogenous (s : GdStack) (hh : s.homogenous = true) :
    takes_part s = s.visible := by
  funext c
  simp [takes_part, hh, gtk_widget_get_visible]

theorem takes_part_not_homogenous (s : GdStack) (hh : s.homogenous = false)
    (c : GtkWidget) :
    takes_part s c = true ↔ s.visible_child = some c ∧ s.visible c = true := by
  simp [takes_part, hh, gtk_widget_get_visible]

/-- C12: in homogeneous mode, with non-negative child sizes, each of the four
preferred-size functions (height, height for width, width, width for height)
returns as minimum the maximum of the children's minimum sizes and as natural
the maximum of their natural sizes, both over exactly the children whose
visibility flag is set (an upper bound of their sizes that one of them
attains), and 0 when no child has its visibility flag set. -/
theorem homogeneous_preferred_size (s : GdStack) (hh : s.homogenous = true)
    (height width : GtkWidget → Int × Int)
    (height_for_width width_for_height : GtkWidget → Int → Int × Int)
    (for_width for_height : Int)
    (h1 : ∀ c ∈ s.children, 0 ≤ (height c).1 ∧ 0 ≤ (height c).2)
    (h2 : ∀ c ∈ s.children,
      0 ≤ (height_for_width c for_width).1 ∧ 0 ≤ (height_for_width c for_width).2)
    (h3 : ∀ c ∈ s.children, 0 ≤ (width c).1 ∧ 0 ≤ (width c).2)
    (h4 : ∀ c ∈ s.children,
      0 ≤ (width_for_height c for_height).1 ∧ 0 ≤ (width_for_height c for_height).2) :
    (IsMaxOver s.children s.visible (fun c => (height c).1)
        (gd_stack_get_preferred_height s height).1 ∧
      IsMaxOver s.children s.visible (fun c => (height c).2)
        (gd_stack_get_preferred_height s height).2) ∧
    (IsMaxOver s.children s.visible (fun c => (height_for_width c for_width).1)
        (gd_stack_get_preferred_height_for_width s height_for_width for_width).1 ∧
      IsMaxOver s.children s.visible (fun c => (height_for_width c for_width).2)
        (gd_stack_get_preferred_height_for_width s height_for_width for_width).2) ∧
    (IsMaxOver s.children s.visible (fun c => (width c).1)
        (gd_stack_get_preferred_width s width).1 ∧
      IsMaxOver s.children s.visible (fun c => (width c).2)
        (gd_stack_get_preferred_width s width).2) ∧
    (IsMaxOver s.children s.visible (fun c => (width_for_height c for_height).1)
        (gd_stack_get_preferred_width_for_height s width_for_height for_height).1 ∧
      IsMaxOver s.children s.visible (fun c => (width_for_height c for_height).2)
        (gd_stack_get_preferred_width_for_height s width_for_height for_height).2) := by
  have key : ∀ child_size : GtkWidget → Int × Int,
      (∀ c ∈ s.children, 0 ≤ (child_size c).1 ∧ 0 ≤ (child_size c).2) →
      IsMaxOver s.children s.visible (fun c => (child_size c).1)
        (preferred_size s child_size).1 ∧
      IsMaxOver s.children s.visible (fun c => (child_size c).2)
        (preferred_size s child_size).2 := by
    intro child_size hnn
    have h := preferred_size_isMaxOver s child_size hnn
    rw [takes_part_homogenous s hh] at h
    exact h
  exact ⟨key height h1, key (fun c => height_for_width c for_width) h2, key width h3,
    key (fun c => width_for_height c for_height) h4⟩

/-- C12 at a concrete input (scenario 7): visible children of preferred
heights 20, 40, 60 in homogeneous mode give the preferred height 60. -/
theorem homogeneous_preferred_size_witness :
    scenario7_homogenous.children = [0, 1, 2] ∧
    gd_stack_get_preferred_height scenario7_homogenous scenario7_heights = (60, 60) ∧
    IsMaxOver scenario7_homogenous.children scenario7_homogenous.visible
      (fun c => (scenario7_heights c).1)
      (gd_stack_get_preferred_height scenario7_homogenous scenario7_heights).1 :=
  ⟨by decide, by decide,
    (homogeneous_preferred_size scenario7_homogenous (by decide)
      scenario7_heights scenario7_heights
      (fun c _ => scenario7_heights c) (fun c _ => scenario7_heights c) 0 0
      (by decide) (by decide) (by decide) (by decide)).1.1⟩

/-- C13 as stated fails: scenario 2 (scenario 1 after A was hidden) is a
reachable state in non-homogeneous mode, without repeated children, where
`visible_child` is still A; with the non-negative heights 20, 40, 60 the
preferred height is 0, not A's 20. -/
theorem not_homogeneous_preferred_size_counterexample :
    Reachable scenario2 ∧
    scenario2.homogenous = false ∧ scenario2.children = [0, 1, 2] ∧
    scenario2.visible_child = some 0 ∧ scenario2.visible 0 = false ∧
    scenario7_heights 0 = (20, 20) ∧
    gd_stack_get_preferred_height scenario2 scenario7_heights = (0, 0) ∧
    ¬ (gd_stack_get_preferred_height scenario2 scenario7_heights = scenario7_heights 0) :=
  ⟨Reachable.set_visible 0 false reachable_scenario1,
    by decide, by decide, by decide, by decide, by decide, by decide, by decide⟩

/-- The shared body in non-homogeneous mode: the sizes of `visible_child`
when it is listed and has its visibility flag set, 0 when it is null. -/
theorem preferred_size_not_homogenous (s : GdStack) (hh : s.homogenous = false)
    (child_size : GtkWidget → Int × Int)
    (hnn : ∀ c ∈ s.children, 0 ≤ (child_size c).1 ∧ 0 ≤ (child_size c).2) :
    (∀ v, s.visible_child = some v → v ∈ s.children → s.visible v = true →
      preferred_size s child_size = child_size v) ∧
    (s.visible_child = none → preferred_size s child_size = (0, 0)) := by
  obtain ⟨⟨_, hat1, hz1⟩, ⟨_, hat2, hz2⟩⟩ := preferred_size_isMaxOver s child_size hnn
  constructor
  · intro v hv hmem hvis
    have htp : takes_part s v = true := (takes_part_not_homogenous s hh v).mpr ⟨hv, hvis⟩
    obtain ⟨c1, _, hp1, he1⟩ := hat1 ⟨v, hmem, htp⟩
    obtain ⟨c2, _, hp2, he2⟩ := hat2 ⟨v, hmem, htp⟩
    have e1 : c1 = v := by
      have := ((takes_part_not_homogenous s hh c1).mp hp1).1
      rw [hv] at this
      exact (Option.some.inj this).symm
    have e2 : c2 = v := by
      have := ((takes_part_not_homogenous s hh c2).mp hp2).1
      rw [hv] at this
      exact (Option.some.inj this).symm
    subst e1
    subst e2
    exact Prod.ext he1.symm he2.symm
  · intro hv
    have hnone : ∀ c ∈ s.children, takes_part s c = false := by
      intro c _
      cases h : takes_part s c with
      | false => rfl
      | true =>
        have := ((takes_part_not_homogenous s hh c).mp h).1
        rw [hv] at this
        cases this
    exact Prod.ext (hz1 hnone) (hz2 hnone)

/-- The shared body in non-homogeneous mode when `visible_child` has its
visibility flag cleared: the test `gtk_widget_get_visible (child)` keeps it
out, and both results are 0. -/
theorem preferred_size_hidden_visible_child (s : GdStack) (hh : s.homogenous = false)
    (child_size : GtkWidget → Int × Int) (v : GtkWidget)
    (hv : s.visible_child = some v) (hvis : s.visible v = false) :
    preferred_size s child_size = (0, 0) := by
  have hnone : ∀ c, takes_part s c = false := by
    intro c
    cases h : takes_part s c with
    | false => rfl
    | true =>
      have h2 := (takes_part_not_homogenous s hh c).mp h
      rw [hv] at h2
      have e : v = c := Option.some.inj h2.1
      rw [← e, hvis] at h2
      cases h2.2
  obtain ⟨ha1, ha2⟩ := foldl_preferred_size_attained s child_size s.children (0, 0)
  unfold preferred_size
  refine Prod.ext ?_ ?_
  · rcases ha1 with h | ⟨c, _, hp, _⟩
    · exact h
    · rw [hnone c] at hp; cases hp
  · rcases ha2 with h | ⟨c, _, hp, _⟩
    · exact h
    · rw [hnone c] at hp; cases hp

/-- C13 amended: in every reachable stack state in non-homogeneous mode, with
non-negative child sizes, each of the four preferred-size functions returns
exactly the corresponding minimum and natural sizes of `visible_child` when
`visible_child` is non-null and has its visibility flag set, and 0 for both
when `visible_child` is null; no other child contributes. -/
theorem not_homogeneous_preferred_size (s : GdStack) (hr : Reachable s)
    (hh : s.homogenous = false)
    (height width : GtkWidget → Int × Int)
    (height_for_width width_for_height : GtkWidget → Int → Int × Int)
    (for_width for_height : Int)
    (h1 : ∀ c ∈ s.children, 0 ≤ (height c).1 ∧ 0 ≤ (height c).2)
    (h2 : ∀ c ∈ s.children,
      0 ≤ (height_for_width c for_width).1 ∧ 0 ≤ (height_for_width c for_width).2)
    (h3 : ∀ c ∈ s.children, 0 ≤ (width c).1 ∧ 0 ≤ (width c).2)
    (h4 : ∀ c ∈ s.children,
      0 ≤ (width_for_height c for_height).1 ∧ 0 ≤ (width_for_height c for_height).2) :
    (∀ v, s.visible_child = some v → s.visible v = true →
      gd_stack_get_preferred_height s height = height v ∧
      gd_stack_get_preferred_height_for_width s height_for_width for_width =
        height_for_width v for_width ∧
      gd_stack_get_preferred_width s width = width v ∧
      gd_stack_get_preferred_width_for_height s width_for_height for_height =
        width_for_height v for_height) ∧
    (s.visible_child = none →
      gd_stack_get_preferred_height s height = (0, 0) ∧
      gd_stack_get_preferred_height_for_width s height_for_width for_width = (0, 0) ∧
      gd_stack_get_preferred_width s width = (0, 0) ∧
      gd_stack_get_preferred_width_for_height s width_for_height for_height = (0, 0)) := by
  constructor
  · intro v hv hvis
    have hmem : v ∈ s.children := hr.inv.2.1 v hv
    exact ⟨(preferred_size_not_homogenous s hh height h1).1 v hv hmem hvis,
      (preferred_size_not_homogenous s hh (fun c => height_for_width c for_width) h2).1
        v hv hmem hvis,
      (preferred_size_not_homogenous s hh width h3).1 v hv hmem hvis,
      (preferred_size_not_homogenous s hh (fun c => width_for_height c for_height) h4).1
        v hv hmem hvis⟩
  · intro hv
    exact ⟨(preferred_size_not_homogenous s hh height h1).2 hv,
      (preferred_size_not_homogenous s hh (fun c => height_for_width c for_width) h2).2 hv,
      (preferred_size_not_homogenous s hh width h3).2 hv,
      (preferred_size_not_homogenous s hh (fun c => width_for_height c for_height) h4).2 hv⟩

/-- C13 amended, at a concrete input (scenario 7): children of preferred
heights 20, 40, 60, all visible, with visible child the 20-child, in
non-homogeneous mode give the preferred height 20. -/
theorem not_homogeneous_preferred_size_witness :
    scenario1.visible_child = some 0 ∧ scenario1.visible 0 = true ∧
    gd_stack_get_preferred_height scenario1 scenario7_heights = (20, 20) :=
  ⟨by decide, by decide,
    ((not_homogeneous_preferred_size scenario1 reachable_scenario1 (by decide)
      scenario7_heights scenario7_heights
      (fun c _ => scenario7_heights c) (fun c _ => scenario7_heights c) 0 0
      (by decide) (by decide) (by decide) (by decide)).1 0 (by decide) (by decide)).1⟩

/-! ## Theorems: expansion flags -/

/-- The loop from any position: each flag ends as its starting value or-ed
with the children that remain. -/
theorem compute_expand_loop_eq (ce : GtkWidget → GtkOrientation → Bool) :
    ∀ (l : List GtkWidget) (hexpand vexpand : Bool),
      compute_expand_loop ce l hexpand vexpand =
        (hexpand || l.any (fun c => ce c GtkOrientation.GTK_ORIENTATION_HORIZONTAL),
         vexpand || l.any (fun c => ce c GtkOrientation.GTK_ORIENTATION_VERTICAL)) := by
  intro l
  induction l with
  | nil => intro h v; simp [compute_expand_loop]
  | cons a t ih =>
    intro h v
    unfold compute_expand_loop
    simp only [List.any_cons]
    cases h <;> cases v <;>
      cases ce a GtkOrientation.GTK_ORIENTATION_HORIZONTAL <;>
      cases ce a GtkOrientation.GTK_ORIENTATION_VERTICAL <;>
      simp [ih]

/-- C15: `gd_stack_compute_expand` returns the same pair as the plain logical
OR over all children: `hexpand` is true exactly when some element of
`children` computes horizontal expansion, `vexpand` exactly when some element
computes vertical expansion (visibility and `visible_child` play no part),
and both are false for a stack without children. -/
theorem gd_stack_compute_expand_eq_or (s : GdStack)
    (gtk_widget_compute_expand : GtkWidget → GtkOrientation → Bool) :
    gd_stack_compute_expand s gtk_widget_compute_expand =
      expand_or_of_children s gtk_widget_compute_expand ∧
    ((gd_stack_compute_expand s gtk_widget_compute_expand).1 = true ↔
      ∃ c ∈ s.children,
        gtk_widget_compute_expand c GtkOrientation.GTK_ORIENTATION_HORIZONTAL = true) ∧
    ((gd_stack_compute_expand s gtk_widget_compute_expand).2 = true ↔
      ∃ c ∈ s.children,
        gtk_widget_compute_expand c GtkOrientation.GTK_ORIENTATION_VERTICAL = true) ∧
    (s.children = [] →
      gd_stack_compute_expand s gtk_widget_compute_expand = (false, false)) := by
  have e : gd_stack_compute_expand s gtk_widget_compute_expand =
      expand_or_of_children s gtk_widget_compute_expand := by
    unfold gd_stack_compute_expand expand_or_of_children
    rw [compute_expand_loop_eq]
    simp
  refine ⟨e, ?_, ?_, ?_⟩
  · rw [e]; simp [expand_or_of_children]
  · rw [e]; simp [expand_or_of_children]
  · intro h
    rw [e]; simp [expand_or_of_children, h]

/-- C15 at a concrete input: in scenario 1 where only B expands, and only
vertically, the flags are (false, true); the loop passes A and C as well. -/
theorem gd_stack_compute_expand_eq_or_witness :
    gd_stack_compute_expand scenario1
        (fun c o => decide (c = 1 ∧ o = GtkOrientation.GTK_ORIENTATION_VERTICAL))
      = (false, true) ∧
    gd_stack_compute_expand scenario1
        (fun c o => decide (c = 1 ∧ o = GtkOrientation.GTK_ORIENTATION_VERTICAL))
      = expand_or_of_children scenario1
        (fun c o => decide (c = 1 ∧ o = GtkOrientation.GTK_ORIENTATION_VERTICAL)) :=
  ⟨by decide, (gd_stack_compute_expand_eq_or scenario1 _).1⟩

/-! ## Theorems: a null visible child means no visible child widget -/

/-- After `set_visible_child`, whatever the state before: when
`visible_child` is null no child has its visibility flag set. -/
theorem set_visible_child_null_all_hidden (s : GdStack) (child : Option GtkWidget) :
    (set_visible_child s child).visible_child = none →
      ∀ c ∈ (set_visible_child s child).children,
        (set_visible_child s child).visible c = false := by
  intro h c hc
  rw [set_visible_child_children] at hc
  rw [set_visible_child_visible]
  cases child with
  | none =>
    rw [set_visible_child_none_visible_child] at h
    exact first_visible_none h c hc
  | some d =>
    rw [set_visible_child_some_visible_child] at h
    cases h

theorem null_all_hidden_cond_queue_resize {s : GdStack}
    (h : s.visible_child = none → ∀ c ∈ s.children, s.visible c = false) :
    (if s.homogenous = true then gtk_widget_queue_resize s else s).visible_child = none →
      ∀ c ∈ (if s.homogenous = true then gtk_widget_queue_resize s else s).children,
        (if s.homogenous = true then gtk_widget_queue_resize s else s).visible c = false := by
  split
  · exact h
  · exact h

theorem null_all_hidden_add {s : GdStack}
    (h : s.visible_child = none → ∀ c ∈ s.children, s.visible c = false)
    (child : Option GtkWidget) :
    (gd_stack_add s child).visible_child = none →
      ∀ c ∈ (gd_stack_add s child).children, (gd_stack_add s child).visible c = false := by
  cases child with
  | none => exact h
  | some d =>
    unfold gd_stack_add
    simp only [gtk_widget_set_parent, gtk_widget_get_visible]
    split
    · apply null_all_hidden_cond_queue_resize
      exact set_visible_child_null_all_hidden _ _
    · rename_i hcond
      apply null_all_hidden_cond_queue_resize
      intro hv c hc
      simp only [gtk_widget_set_child_visible] at hv hc ⊢
      rcases List.mem_append.mp hc with hc | hc
      · exact h hv c hc
      · rw [List.mem_singleton] at hc
        subst hc
        cases hvis : s.visible c with
        | false => rfl
        | true => exact absurd ⟨hv, hvis⟩ hcond

theorem null_all_hidden_remove {s : GdStack}
    (h : s.visible_child = none → ∀ c ∈ s.children, s.visible c = false)
    (child : GtkWidget) :
    (gd_stack_remove s child).visible_child = none →
      ∀ c ∈ (gd_stack_remove s child).children, (gd_stack_remove s child).visible c = false := by
  unfold gd_stack_remove
  split
  · simp only [gtk_widget_unparent]
    split
    · apply null_all_hidden_cond_queue_resize
      exact set_visible_child_null_all_hidden _ _
    · apply null_all_hidden_cond_queue_resize
      intro hv c hc
      exact h hv c (List.mem_of_mem_erase hc)
  · exact h

theorem null_all_hidden_gd_stack_set_visible_child {s : GdStack}
    (h : s.visible_child = none → ∀ c ∈ s.children, s.visible c = false)
    (child : Option GtkWidget) :
    (gd_stack_set_visible_child s child).visible_child = none →
      ∀ c ∈ (gd_stack_set_visible_child s child).children,
        (gd_stack_set_visible_child s child).visible c = false := by
  unfold gd_stack_set_visible_child
  cases child with
  | none => exact h
  | some d =>
    simp only
    split
    · split
      · exact set_visible_child_null_all_hidden _ _
      · exact h
    · exact h

theorem null_all_hidden_gd_stack_set_visible_child_name {s : GdStack}
    (h : s.visible_child = none → ∀ c ∈ s.children, s.visible c = false)
    (name : Option String) :
    (gd_stack_set_visible_child_name s name).visible_child = none →
      ∀ c ∈ (gd_stack_set_visible_child_name s name).children,
        (gd_stack_set_visible_child_name s name).visible c = false := by
  unfold gd_stack_set_visible_child_name
  cases name with
  | none => exact h
  | some n =>
    simp only
    split
    · split
      · exact set_visible_child_null_all_hidden _ _
      · exact h
    · exact h

theorem null_all_hidden_set_visible {s : GdStack}
    (h : s.visible_child = none → ∀ c ∈ s.children, s.visible c = false)
    (w : GtkWidget) (b : Bool) :
    (gtk_widget_set_visible s w b).visible_child = none →
      ∀ c ∈ (gtk_widget_set_visible s w b).children,
        (gtk_widget_set_visible s w b).visible c = false := by
  unfold gtk_widget_set_visible
  split
  · exact h
  · simp only
    split
    · rename_i hw
      unfold stack_child_visibility_notify_cb
      simp only [gtk_widget_get_visible]
      split
      · exact set_visible_child_null_all_hidden _ _
      · rename_i hc1
        split
        · exact set_visible_child_null_all_hidden _ _
        · intro hv c hc
          simp only at hv hc ⊢
          by_cases hcw : c = w
          · subst hcw
            cases hvis : setFlag s.visible c b c with
            | false => rfl
            | true => exact absurd ⟨hv, hvis⟩ hc1
          · simp only [setFlag, hcw, if_false]
            exact h hv c hc
    · rename_i hw
      intro hv c hc
      simp only at hv hc ⊢
      have hcw : c ≠ w := fun e => hw (e ▸ hc)
      simp only [setFlag, hcw, if_false]
      exact h hv c hc

theorem null_all_hidden_set_homogenous {s : GdStack}
    (h : s.visible_child = none → ∀ c ∈ s.children, s.visible c = false) (b : Bool) :
    (gd_stack_set_homogenous s b).visible_child = none →
      ∀ c ∈ (gd_stack_set_homogenous s b).children,
        (gd_stack_set_homogenous s b).visible c = false := by
  unfold gd_stack_set_homogenous
  split
  · exact h
  · exact h

/-- C16: in every stack state reachable from a new stack by any sequence of
add (the container hands `gd_stack_add` only a widget that is not yet a
child), remove, public set_visible_child, set_visible_child_name,
set_homogenous and visibility changes of widgets (each change on a child
being followed by the stack's visibility listener): when `visible_child` is
null no element of `children` has its visibility flag set; equivalently, when
some child has its visibility flag set, `visible_child` is non-null. -/
theorem null_visible_child_all_hidden (s : GdStack) (h : Reachable s) :
    (s.visible_child = none → ∀ c ∈ s.children, s.visible c = false) ∧
    ((∃ c ∈ s.children, s.visible c = true) → s.visible_child ≠ none) := by
  have key : s.visible_child = none → ∀ c ∈ s.children, s.visible c = false := by
    induction h with
    | new visible child_visible name =>
      intro _ c hc
      simp [gd_stack_new] at hc
    | add child _ _ ih => exact null_all_hidden_add ih (some child)
    | remove child _ ih => exact null_all_hidden_remove ih child
    | set_visible_child child _ ih => exact null_all_hidden_gd_stack_set_visible_child ih child
    | set_visible_child_name name _ ih =>
      exact null_all_hidden_gd_stack_set_visible_child_name ih name
    | set_visible w b _ ih => exact null_all_hidden_set_visible ih w b
    | set_homogenous b _ ih => exact null_all_hidden_set_homogenous ih b
  refine ⟨key, ?_⟩
  rintro ⟨c, hc, hvis⟩ hnone
  rw [key hnone c hc] at hvis
  cases hvis

/-- C16 at a concrete state, scenario 2: B and C have their visibility flag
set and `visible_child` is non-null; it is A, whose own visibility flag is
cleared. -/
theorem null_visible_child_all_hidden_witness :
    scenario2.visible 1 = true ∧ scenario2.visible_child = some 0 ∧
    scenario2.visible 0 = false ∧
    ((∃ c ∈ scenario2.children, scenario2.visible c = true) →
      scenario2.visible_child ≠ none) :=
  ⟨by decide, by decide, by decide,
    (null_visible_child_all_hidden scenario2
      (Reachable.set_visible 0 false reachable_scenario1)).2⟩

/-! ## Theorems: GdStyledTextRenderer -/

theorem RendererReachable.nodup {r : GdStyledTextRenderer} (h : RendererReachable r) :
    r.style_classes.Nodup := by
  induction h with
  | new => exact List.nodup_nil
  | add_class class_ _ ih =>
    rename_i r0
    unfold gd_styled_text_renderer_add_class
    split
    · exact ih
    · rename_i hm
      simp only
      rw [List.nodup_append]
      refine ⟨ih, List.nodup_singleton _, ?_⟩
      intro a ha hb
      rw [List.mem_singleton] at hb
      exact hm (hb ▸ ha)
  | remove_class class_ _ ih =>
    unfold gd_styled_text_renderer_remove_class
    split
    · exact ih.erase class_
    · exact ih

/-- C14: in every renderer state reachable from a new renderer by add_class
and remove_class calls the tag sequence has no repeated tag; `add_class (t)`
leaves the renderer unchanged when t is present and otherwise appends t at
the end; `remove_class (t)` leaves the renderer unchanged when t is absent
and otherwise deletes t, the result being a sublist of the old sequence
(order kept); after `remove_class (t)` the tag t does not occur. -/
theorem style_classes_deduplicated (r : GdStyledTextRenderer) (h : RendererReachable r) :
    r.style_classes.Nodup ∧
    ∀ t : Option String,
      (t ∈ r.style_classes → gd_styled_text_renderer_add_class r t = r) ∧
      (t ∉ r.style_classes →
        (gd_styled_text_renderer_add_class r t).style_classes = r.style_classes ++ [t]) ∧
      (t ∉ r.style_classes → gd_styled_text_renderer_remove_class r t = r) ∧
      (t ∈ r.style_classes →
        (gd_styled_text_renderer_remove_class r t).style_classes = r.style_classes.erase t ∧
        (gd_styled_text_renderer_remove_class r t).style_classes.Sublist r.style_classes ∧
        (gd_styled_text_renderer_remove_class r t).style_classes.length + 1 =
          r.style_classes.length) ∧
      t ∉ (gd_styled_text_renderer_remove_class r t).style_classes := by
  refine ⟨h.nodup, ?_⟩
  intro t
  refine ⟨?_, ?_, ?_, ?_, ?_⟩
  · intro ht
    simp [gd_styled_text_renderer_add_class, ht]
  · intro ht
    simp [gd_styled_text_renderer_add_class, ht]
  · intro ht
    simp [gd_styled_text_renderer_remove_class, ht]
  · intro ht
    have e : (gd_styled_text_renderer_remove_class r t).style_classes =
        r.style_classes.erase t := by
      simp [gd_styled_text_renderer_remove_class, ht]
    refine ⟨e, ?_, ?_⟩
    · rw [e]; exact List.erase_sublist t r.style_classes
    · rw [e, List.length_erase_of_mem ht]
      have : 0 < r.style_classes.length := List.length_pos_of_mem ht
      omega
  · by_cases ht : t ∈ r.style_classes
    · have e : (gd_styled_text_renderer_remove_class r t).style_classes =
          r.style_classes.erase t := by
        simp [gd_styled_text_renderer_remove_class, ht]
      rw [e]
      exact List.Nodup.not_mem_erase h.nodup
    · simp [gd_styled_text_renderer_remove_class, ht]

/-- C14 at a concrete state: after adding "a", "b", then "a" again, the
sequence is "a", "b"; removing "a" leaves "b". -/
theorem style_classes_deduplicated_witness :
    (gd_styled_text_renderer_add_class
      (gd_styled_text_renderer_add_class
        (gd_styled_text_renderer_add_class gd_styled_text_renderer_new (some "a"))
        (some "b"))
      (some "a")).style_classes = [some "a", some "b"] ∧
    (gd_styled_text_renderer_remove_class
      (gd_styled_text_renderer_add_class
        (gd_styled_text_renderer_add_class
          (gd_styled_text_renderer_add_class gd_styled_text_renderer_new (some "a"))
          (some "b"))
        (some "a"))
      (some "a")).style_classes = [some "b"] ∧
    (gd_styled_text_renderer_add_class
      (gd_styled_text_renderer_add_class
        (gd_styled_text_renderer_add_class gd_styled_text_renderer_new (some "a"))
        (some "b"))
      (some "a")).style_classes.Nodup :=
  ⟨by decide, by decide,
    (style_classes_deduplicated _
      (RendererReachable.add_class (some "a")
        (RendererReachable.add_class (some "b")
          (RendererReachable.add_class (some "a") RendererReachable.new)))).1⟩

/-! ## Theorems: the active button of the switcher -/

/-- The routine `add_child` does not read the stacks: run in a world with
other stacks it builds the same switcher. -/
theorem add_child_heap (w : GdStackSwitcher) (heap : Nat → GdStack) (widget : GtkWidget) :
    add_child { w with heap := heap } widget = { add_child w widget with heap := heap } := by
  rfl

theorem foldl_add_child_heap (heap : Nat → GdStack) (l : List GtkWidget) :
    ∀ w : GdStackSwitcher,
      l.foldl add_child { w with heap := heap } = { l.foldl add_child w with heap := heap } := by
  induction l with
  | nil => intro w; rfl
  | cons a t ih =>
    intro w
    rw [List.foldl_cons, List.foldl_cons, add_child_heap, ih]

theorem connect_stack_signals_box (w : GdStackSwitcher) :
    (connect_stack_signals w).box = w.box ∧
    (connect_stack_signals w).buttons = w.buttons := by
  unfold connect_stack_signals
  split
  · exact ⟨rfl, rfl⟩
  · exact ⟨rfl, rfl⟩

/-- On a new switcher, `set_stack` leaves the bar and the table that the
population loop built. -/
theorem set_stack_new_box (heap : Nat → GdStack) (title : GtkWidget → Option String)
    (st : Nat) :
    (gd_stack_switcher_set_stack (gd_stack_switcher_new heap title) (some st)).box =
      ((heap st).children.foldl add_child
        { gd_stack_switcher_new heap title with stack := some st }).box ∧
    (gd_stack_switcher_set_stack (gd_stack_switcher_new heap title) (some st)).buttons =
      ((heap st).children.foldl add_child
        { gd_stack_switcher_new heap title with stack := some st }).buttons := by
  have h : (gd_stack_switcher_new heap title).stack ≠ some st := by
    simp [gd_stack_switcher_new]
  unfold gd_stack_switcher_set_stack
  rw [if_neg h]
  exact connect_stack_signals_box _

/-- C11 (what the code does): `gd_stack_switcher_set_stack` builds the bar from
the stack's `children` alone.  On two stacks with the same children a new
switcher gets the same bar and the same table, whatever their visible
children.  With the visible children A, B and visible child B (not the first
child), right after `set_stack` the table maps B to the second button, and
the active button is the first one, A's; the stack with visible child A gets
the very same bar. -/
theorem set_stack_ignores_visible_child :
    (∀ (heap1 heap2 : Nat → GdStack) (title : GtkWidget → Option String) (st : Nat),
      (heap1 st).children = (heap2 st).children →
      (gd_stack_switcher_set_stack (gd_stack_switcher_new heap1 title) (some st)).box =
        (gd_stack_switcher_set_stack (gd_stack_switcher_new heap2 title) (some st)).box ∧
      (gd_stack_switcher_set_stack (gd_stack_switcher_new heap1 title) (some st)).buttons =
        (gd_stack_switcher_set_stack (gd_stack_switcher_new heap2 title) (some st)).buttons) ∧
    (stack_showing_second.children = [0, 1] ∧
      stack_showing_second.visible_child = some 1 ∧
      (gd_stack_switcher_set_stack
        (gd_stack_switcher_new (fun _ => stack_showing_second) (fun _ => none))
        (some 1)).stack = some 1 ∧
      g_hash_table_lookup
        (gd_stack_switcher_set_stack
          (gd_stack_switcher_new (fun _ => stack_showing_second) (fun _ => none))
          (some 1)).buttons 1 = some 1 ∧
      (gd_stack_switcher_set_stack
        (gd_stack_switcher_new (fun _ => stack_showing_second) (fun _ => none))
        (some 1)).box.map (fun b => (b.id, b.stack_child, b.active)) =
          [(0, some 0, true), (1, some 1, false)] ∧
      active_children
        (gd_stack_switcher_set_stack
          (gd_stack_switcher_new (fun _ => stack_showing_second) (fun _ => none))
          (some 1)) = [some 0]) ∧
    (stack_showing_first.visible_child = some 0 ∧
      (gd_stack_switcher_set_stack
        (gd_stack_switcher_new (fun _ => stack_showing_first) (fun _ => none))
        (some 1)).box =
      (gd_stack_switcher_set_stack
        (gd_stack_switcher_new (fun _ => stack_showing_second) (fun _ => none))
        (some 1)).box) := by
  refine ⟨?_, by decide, by decide⟩
  intro heap1 heap2 title st hch
  have e : ({ gd_stack_switcher_new heap2 title with stack := some st } : GdStackSwitcher) =
      { ({ gd_stack_switcher_new heap1 title with stack := some st } : GdStackSwitcher)
        with heap := heap2 } := rfl
  rw [(set_stack_new_box heap1 title st).1, (set_stack_new_box heap1 title st).2,
    (set_stack_new_box heap2 title st).1, (set_stack_new_box heap2 title st).2,
    e, foldl_add_child_heap, hch]
  exact ⟨rfl, rfl⟩

end Gd
